import Mathlib

/-!
Verification of the graffiti client-side synchronization engine
(`graffiti.js`, two variants: the tag variant and the context variant).

The engine state is a pair of JavaScript objects used as maps:
`tagMap`/`contextMap` (label -> {count, Set of ids}) and `objectMap`
(id -> object).  We embed JS objects as association lists keyed by
`String`, preserving JS property-iteration order (insertion order):
assignment to an existing key updates it in place, assignment to a
fresh key appends, `delete` removes.  JS `Set`s are embedded as
duplicate-free lists with insertion-order semantics: `add` appends if
absent, `delete` filters.
-/

set_option maxHeartbeats 1000000

/-- JS property read `m[k]`: value at the first matching key, if any. -/
def lookupK {α : Type} (m : List (String × α)) (k : String) : Option α :=
  match m with
  | [] => none
  | (k', v) :: rest => if k' = k then some v else lookupK rest k

/-- JS property write `m[k] = v`: update in place if present, else append. -/
def setKey {α : Type} (m : List (String × α)) (k : String) (v : α) :
    List (String × α) :=
  match m with
  | [] => [(k, v)]
  | (k', v') :: rest =>
    if k' = k then (k, v) :: rest else (k', v') :: setKey rest k v

/-- JS `delete m[k]`. -/
def delKey {α : Type} (m : List (String × α)) (k : String) :
    List (String × α) :=
  m.filter (fun p => p.1 ≠ k)

/-- JS `set.add(x)`: append if absent. -/
def insertSet (s : List String) (x : String) : List String :=
  if x ∈ s then s else s ++ [x]

/-- JS `set.delete(x)`. -/
def eraseSet (s : List String) (x : String) : List String :=
  s.filter (fun y => y ≠ x)

/-- Observational equality of two JS-object maps: same keys in the same
order (`Object.keys`) and the same value under every property read. -/
def MapObsEq {α : Type} (m m' : List (String × α)) : Prop :=
  m.map Prod.fst = m'.map Prod.fst ∧ ∀ k, lookupK m k = lookupK m' k

/-! ## Tag variant (first half of `graffiti.js`) -/

/-- An object in the tag variant.  `_by`, `_key` and `_tags` are the
source fields; `payload` stands for the remaining enumerable
application fields; `_id` models the non-enumerable `_id` property
installed by `#updateCallback`; `proxyLayers` counts how many times the
object has been wrapped in `new Proxy(...)`. -/
structure TagObject where
  _by : String
  _key : String
  _tags : List String
  payload : List (String × String)
  _id : Option String
  proxyLayers : Nat
deriving DecidableEq

/-- One slot of `tagMap`: `{uuids: Set, count}`. -/
structure TagEntry where
  uuids : List String
  count : Int
deriving DecidableEq

/-- The tag-variant engine state: `tagMap` and `objectMap`. -/
structure TagState where
  tagMap : List (String × TagEntry)
  objectMap : List (String × TagObject)
deriving DecidableEq

/-- `#objectUUID`: `object._by + object._key`; throws (here: `none`)
when `_by` or `_key` is falsy (embedded: the empty string). -/
def objectUUID (o : TagObject) : Option String :=
  if o._by = "" ∨ o._key = "" then none else some (o._by ++ o._key)

/-- The loop of `#updateCallback`: add `uuid` to the uuid set of every
subscribed tag of the object; the Bool is the `subscribed` flag. -/
def addTags (m : List (String × TagEntry)) (uuid : String)
    (tags : List String) : List (String × TagEntry) × Bool :=
  match tags with
  | [] => (m, false)
  | t :: rest =>
    match lookupK m t with
    | none => addTags m uuid rest
    | some e =>
      let m' := setKey m t { e with uuids := insertSet e.uuids uuid }
      ((addTags m' uuid rest).1, true)

/-- `Object.defineProperty(object, '_id', ...)` followed by
`new Proxy(object, handler)`. -/
def tagWrap (uuid : String) (o : TagObject) : TagObject :=
  { o with _id := some uuid, proxyLayers := o.proxyLayers + 1 }

/-- `Object.assign({}, proxy)`: a plain shallow copy; the non-enumerable
`_id` is not copied, and the copy is not a proxy. -/
def snapshotT (o : TagObject) : TagObject :=
  { o with _id := none, proxyLayers := 0 }

/-- `#updateCallback` (tag variant).  `none` models the thrown identity
error.  The inner `Option TagObject` is the returned `originalObject`
(`none` for both the bare `return` when unsubscribed and the `null`
when the object is new). -/
def tagUpdateCallback (st : TagState) (o : TagObject) :
    Option (TagState × Option TagObject) :=
  match objectUUID o with
  | none => none
  | some uuid =>
    let r := addTags st.tagMap uuid o._tags
    if r.2 = false then some ({ st with tagMap := r.1 }, none)
    else
      some ({ tagMap := r.1,
              objectMap := setKey st.objectMap uuid (tagWrap uuid o) },
            (lookupK st.objectMap uuid).map snapshotT)

/-- The loop of `#removeCallback`: delete `uuid` from the uuid set of
every subscribed tag of the object. -/
def removeTags (m : List (String × TagEntry)) (uuid : String)
    (tags : List String) : List (String × TagEntry) :=
  match tags with
  | [] => m
  | t :: rest =>
    match lookupK m t with
    | none => removeTags m uuid rest
    | some e =>
      removeTags (setKey m t { e with uuids := eraseSet e.uuids uuid }) uuid rest

/-- `#removeCallback` (tag variant). -/
def tagRemoveCallback (st : TagState) (o : TagObject) : Option TagState :=
  (objectUUID o).map fun uuid =>
    { tagMap := removeTags st.tagMap uuid o._tags,
      objectMap := delKey st.objectMap uuid }

/-- The public `update` (tag variant).  `myID` is the session actor,
`freshKey` the value `crypto.randomUUID()` would produce when `_key` is
missing, and `rejected` tells whether the server request fails (this
includes the not-connected throw).  `none` models a thrown identity
error. -/
def tagUpdate (st : TagState) (o : TagObject) (myID freshKey : String)
    (rejected : Bool) : Option TagState :=
  let o1 := { o with _by := myID }
  let o2 := if o1._key = "" then { o1 with _key := freshKey } else o1
  match tagUpdateCallback st o2 with
  | none => none
  | some (st1, originalObject) =>
    if rejected = false then some st1
    else
      match originalObject with
      | some orig => (tagUpdateCallback st1 orig).map (·.1)
      | none => tagRemoveCallback st1 o2

/-- The loop of `subscribe` (tag variant): bump counts, create fresh
slots, and collect the newly created tags in order. -/
def tagSubscribeLoop (m : List (String × TagEntry)) (tags : List String) :
    List (String × TagEntry) × List String :=
  match tags with
  | [] => (m, [])
  | t :: rest =>
    match lookupK m t with
    | some e => tagSubscribeLoop (setKey m t { e with count := e.count + 1 }) rest
    | none =>
      let r := tagSubscribeLoop (setKey m t { uuids := [], count := 1 }) rest
      (r.1, t :: r.2)

/-- `subscribe(...tags)` (tag variant).  Null entries of the argument
list are `none`; `filter(tag => tag != null)` keeps everything else.
The second component is the batched outbound subscribe request, when
one is issued. -/
def tagSubscribe (st : TagState) (tags : List (Option String)) :
    TagState × Option (List String) :=
  let r := tagSubscribeLoop st.tagMap (tags.filterMap id)
  ({ st with tagMap := r.1 },
   if r.2.isEmpty then none else some r.2)

/-- The loop of `unsubscribe` (tag variant): decrement, delete slots
reaching zero and collect them.  `none` models the TypeError thrown on
a tag with no slot. -/
def tagUnsubscribeLoop (m : List (String × TagEntry)) (tags : List String) :
    Option (List (String × TagEntry) × List String) :=
  match tags with
  | [] => some (m, [])
  | t :: rest =>
    match lookupK m t with
    | none => none
    | some e =>
      if e.count - 1 = 0 then
        match tagUnsubscribeLoop (delKey m t) rest with
        | none => none
        | some r => some (r.1, t :: r.2)
      else
        tagUnsubscribeLoop (setKey m t { e with count := e.count - 1 }) rest

/-- `unsubscribe(...tags)` (tag variant).  The second component is the
batched outbound unsubscribe request, when one is issued. -/
def tagUnsubscribe (st : TagState) (tags : List (Option String)) :
    Option (TagState × Option (List String)) :=
  (tagUnsubscribeLoop st.tagMap (tags.filterMap id)).map fun r =>
    ({ st with tagMap := r.1 },
     if r.2.isEmpty then none else some r.2)

/-- `#onOpen` (tag variant): reset every tag slot to an empty uuid set,
empty the object map, and issue one batched subscribe request for all
registered tags (none when there are no tags). -/
def tagOnOpen (st : TagState) : TagState × Option (List String) :=
  let tm := st.tagMap.map (fun p => (p.1, { p.2 with uuids := ([] : List String) }))
  let tags := tm.map Prod.fst
  ({ tagMap := tm, objectMap := [] },
   if tags.isEmpty then none else some tags)

/-! ## Context variant (second half of `graffiti.js`) -/

/-- An object in the context variant.  `id` and `context` are the
source fields; `payload` stands for the remaining enumerable
application fields; `graffitiProxy` models the `__graffitiProxy`
marker property; `proxyLayers` counts `new Proxy(...)` wrappings. -/
structure CtxObject where
  id : String
  context : List String
  payload : List (String × String)
  graffitiProxy : Bool
  proxyLayers : Nat
deriving DecidableEq

/-- One slot of `contextMap`: `{ids: Set, count}`. -/
structure CtxEntry where
  ids : List String
  count : Int
deriving DecidableEq

/-- The context-variant engine state: `contextMap` and `objectMap`. -/
structure CtxState where
  contextMap : List (String × CtxEntry)
  objectMap : List (String × CtxObject)
deriving DecidableEq

/-- `[...object.context, object.id].includes(c)`: the labels the object
belongs to are its contexts plus its own id. -/
def belongs (o : CtxObject) (c : String) : Bool :=
  c ∈ o.context ∨ c = o.id

/-- The loop of `#updateCallback` (context variant): add `object.id` to
the id set of every subscribed label among `[...object.context,
object.id]`; the Bool is the `subscribed` flag. -/
def addCtxs (m : List (String × CtxEntry)) (i : String)
    (cs : List String) : List (String × CtxEntry) × Bool :=
  match cs with
  | [] => (m, false)
  | c :: rest =>
    match lookupK m c with
    | none => addCtxs m i rest
    | some e =>
      let m' := setKey m c { e with ids := insertSet e.ids i }
      ((addCtxs m' i rest).1, true)

/-- The marker-guarded wrap of `#updateCallback` (context variant):
define `__graffitiProxy` and wrap in a proxy only when the marker is
not yet present. -/
def ctxWrap (o : CtxObject) : CtxObject :=
  if o.graffitiProxy then o
  else { o with graffitiProxy := true, proxyLayers := o.proxyLayers + 1 }

/-- `#updateCallback` (context variant); returns the new state and the
(possibly wrapped) object the source returns. -/
def ctxUpdateCallback (st : CtxState) (o : CtxObject) :
    CtxState × CtxObject :=
  let r := addCtxs st.contextMap o.id (o.context ++ [o.id])
  let o' := ctxWrap o
  ({ contextMap := r.1,
     objectMap := if r.2 then setKey st.objectMap o.id o' else st.objectMap },
   o')

/-- The loop of `#removeCallback` (context variant), over every slot of
`contextMap`: delete the id from the sets of labels the object belongs
to, and flag `supported` when some other slot still lists the id. -/
def ctxRemoveLoop (entries : List (String × CtxEntry)) (o : CtxObject) :
    List (String × CtxEntry) × Bool :=
  match entries with
  | [] => ([], false)
  | (c, e) :: rest =>
    let r := ctxRemoveLoop rest o
    if o.id ∈ e.ids then
      if belongs o c then
        ((c, { e with ids := eraseSet e.ids o.id }) :: r.1, r.2)
      else
        ((c, e) :: r.1, true)
    else
      ((c, e) :: r.1, r.2)

/-- `#removeCallback` (context variant). -/
def ctxRemoveCallback (st : CtxState) (o : CtxObject) : CtxState :=
  let r := ctxRemoveLoop st.contextMap o
  { contextMap := r.1,
    objectMap :=
      if r.2 = false ∧ (lookupK st.objectMap o.id).isSome then
        delKey st.objectMap o.id
      else st.objectMap }

/-- `[...new Set(list)]`: de-duplicate keeping first occurrences. -/
def dedupCtx (cs : List String) : List String :=
  match cs with
  | [] => []
  | c :: rest => c :: (dedupCtx rest).filter (fun x => x ≠ c)

/-- `#post` (context variant): de-dupe contexts, optimistically install
via `#updateCallback`, and on server rejection run `#removeCallback` on
the installed object. -/
def ctxPost (st : CtxState) (o : CtxObject) (rejected : Bool) :
    CtxState × CtxObject :=
  let o1 := { o with context := dedupCtx o.context }
  let r := ctxUpdateCallback st o1
  if rejected then (ctxRemoveCallback r.1 r.2, r.2) else r

/-- First loop of `unsubscribe` (context variant): decrement every
listed context; `none` models the TypeError on a missing slot. -/
def ctxDecrement (m : List (String × CtxEntry)) (cs : List String) :
    Option (List (String × CtxEntry)) :=
  match cs with
  | [] => some m
  | c :: rest =>
    match lookupK m c with
    | none => none
    | some e => ctxDecrement (setKey m c { e with count := e.count - 1 }) rest

/-- `object.context.reduce((a, c) => a + (c != context && keys.has(c) ? 1 : 0), 0)`. -/
def keysLeftCount (keys : List String) (c : String) (ctxs : List String) : Nat :=
  ctxs.foldl (fun a x => a + (if x ≠ c ∧ x ∈ keys then 1 else 0)) 0

/-- Inner eviction loop of `unsubscribe` (context variant): for each id
of the dying slot, delete the cached object when `keysLeft` is nonzero
(as the source is written); `none` models the TypeError on an id with
no cached object. -/
def ctxEvict (om : List (String × CtxObject)) (keys : List String)
    (c : String) (ids : List String) : Option (List (String × CtxObject)) :=
  match ids with
  | [] => some om
  | i :: rest =>
    match lookupK om i with
    | none => none
    | some obj =>
      ctxEvict
        (if keysLeftCount keys c obj.context ≠ 0 then delKey om i else om)
        keys c rest

/-- Second loop of `unsubscribe` (context variant): delete slots whose
count reached zero, running the eviction loop for each, and collect
them. -/
def ctxUnsubscribeLoop (cm : List (String × CtxEntry))
    (om : List (String × CtxObject)) (cs : List String) :
    Option (List (String × CtxEntry) × List (String × CtxObject) × List String) :=
  match cs with
  | [] => some (cm, om, [])
  | c :: rest =>
    match lookupK cm c with
    | none => none
    | some e =>
      if e.count = 0 then
        match ctxEvict om (cm.map Prod.fst) c e.ids with
        | none => none
        | some om' =>
          match ctxUnsubscribeLoop (delKey cm c) om' rest with
          | none => none
          | some r => some (r.1, r.2.1, c :: r.2.2)
      else
        ctxUnsubscribeLoop cm om rest

/-- `unsubscribe(contexts)` (context variant).  The second component is
the batched outbound unsubscribe request, when one is issued. -/
def ctxUnsubscribe (st : CtxState) (cs : List (Option String)) :
    Option (CtxState × Option (List String)) :=
  let csf := cs.filterMap id
  match ctxDecrement st.contextMap csf with
  | none => none
  | some cm =>
    match ctxUnsubscribeLoop cm st.objectMap csf with
    | none => none
    | some r =>
      some ({ contextMap := r.1, objectMap := r.2.1 },
            if r.2.2.isEmpty then none else some r.2.2)

/-- The loop of `subscribe` (context variant). -/
def ctxSubscribeLoop (m : List (String × CtxEntry)) (cs : List String) :
    List (String × CtxEntry) × List String :=
  match cs with
  | [] => (m, [])
  | c :: rest =>
    match lookupK m c with
    | some e => ctxSubscribeLoop (setKey m c { e with count := e.count + 1 }) rest
    | none =>
      let r := ctxSubscribeLoop (setKey m c { ids := [], count := 1 }) rest
      (r.1, c :: r.2)

/-- `subscribe(contexts)` (context variant). -/
def ctxSubscribe (st : CtxState) (cs : List (Option String)) :
    CtxState × Option (List String) :=
  let r := ctxSubscribeLoop st.contextMap (cs.filterMap id)
  ({ st with contextMap := r.1 },
   if r.2.isEmpty then none else some r.2)

/-- `#onOpen` (context variant). -/
def ctxOnOpen (st : CtxState) : CtxState × Option (List String) :=
  let cm := st.contextMap.map (fun p => (p.1, { p.2 with ids := ([] : List String) }))
  let cs := cm.map Prod.fst
  ({ contextMap := cm, objectMap := [] },
   if cs.isEmpty then none else some cs)

/-! ## Request/reply correlator (`#request`, both variants) -/

/-- The outbound request kinds the engine can send. -/
inductive Msg where
  | update (body : String)
  | remove (id : String)
  | subscribe (labels : List String)
  | unsubscribe (labels : List String)
  | ls
deriving DecidableEq

/-- `#request` (both variants share this logic): when the connection is
not open, throw at once with no channel write; otherwise stamp and send
the message (the second component lists the channel writes performed)
and settle with the abstracted server reply.  The message-id stamping
and reply correlation are abstracted into `serverReply`. -/
def request (openFlag : Bool) (msg : Msg)
    (serverReply : Except String String) :
    Except String String × List Msg :=
  if openFlag = false then
    (Except.error "not connected to graffiti server", [])
  else
    (serverReply, [msg])

/-! ## Derived predicates used in the statements -/

/-- Observational equality of two tag-variant states. -/
def TagObsEq (s s' : TagState) : Prop :=
  MapObsEq s.tagMap s'.tagMap ∧ MapObsEq s.objectMap s'.objectMap

/-- Observational equality of two context-variant states. -/
def CtxObsEq (s s' : CtxState) : Prop :=
  MapObsEq s.contextMap s'.contextMap ∧ MapObsEq s.objectMap s'.objectMap

/-- Registry invariant: every registered tag slot has a positive
refcount. -/
def TagCounts (st : TagState) : Prop :=
  ∀ p ∈ st.tagMap, 0 < p.2.count

/-- The `supported` flag computed by `#removeCallback` (context
variant): some slot lists the id under a label the object does not
belong to. -/
def ctxSupported (st : CtxState) (o : CtxObject) : Bool :=
  st.contextMap.any (fun p => o.id ∈ p.2.ids ∧ ¬ belongs o p.1 = true)

/-! ## Lemmas about the map and set embeddings -/

theorem delKey_cons_ne {α : Type} {k0 k : String} (v0 : α)
    (rest : List (String × α)) (h : k0 ≠ k) :
    delKey ((k0, v0) :: rest) k = (k0, v0) :: delKey rest k := by
  simp [delKey, List.filter_cons, h]

theorem delKey_cons_eq {α : Type} {k0 k : String} (v0 : α)
    (rest : List (String × α)) (h : k0 = k) :
    delKey ((k0, v0) :: rest) k = delKey rest k := by
  simp [delKey, List.filter_cons, h]

theorem lookupK_setKey {α : Type} (m : List (String × α)) (k : String)
    (v : α) (k' : String) :
    lookupK (setKey m k v) k' = if k' = k then some v else lookupK m k' := by
  induction m with
  | nil =>
    simp only [setKey, lookupK]
    by_cases h : k = k'
    · subst h; simp
    · simp [h, Ne.symm h]
  | cons p rest ih =>
    obtain ⟨k0, v0⟩ := p
    simp only [setKey]
    by_cases h0 : k0 = k
    · subst h0
      simp only [if_pos rfl, lookupK]
      by_cases h1 : k0 = k'
      · subst h1; simp
      · simp [h1, Ne.symm h1]
    · rw [if_neg h0]
      by_cases h1 : k0 = k'
      · subst h1
        simp [lookupK, h0]
      · simp [lookupK, h1, ih]

theorem lookupK_delKey {α : Type} (m : List (String × α)) (k k' : String) :
    lookupK (delKey m k) k' = if k' = k then none else lookupK m k' := by
  induction m with
  | nil =>
    simp only [delKey, List.filter_nil, lookupK]
    by_cases h : k' = k
    · simp [h]
    · simp [h]
  | cons p rest ih =>
    obtain ⟨k0, v0⟩ := p
    by_cases h0 : k0 = k
    · rw [delKey_cons_eq v0 rest h0, ih]
      subst h0
      by_cases h1 : k' = k0
      · simp [h1]
      · simp [lookupK, h1, Ne.symm h1]
    · rw [delKey_cons_ne v0 rest h0]
      by_cases h1 : k0 = k'
      · subst h1
        simp [lookupK, h0]
      · simp [lookupK, h1, ih]

theorem lookupK_mem {α : Type} {m : List (String × α)} {k : String} {v : α}
    (h : lookupK m k = some v) : (k, v) ∈ m := by
  induction m with
  | nil => simp [lookupK] at h
  | cons p rest ih =>
    obtain ⟨k0, v0⟩ := p
    by_cases h0 : k0 = k
    · subst h0
      have h2 : v0 = v := by simpa [lookupK] using h
      subst h2
      simp
    · simp only [lookupK, if_neg h0] at h
      exact List.mem_cons_of_mem _ (ih h)

theorem lookupK_none_iff {α : Type} (m : List (String × α)) (k : String) :
    lookupK m k = none ↔ k ∉ m.map Prod.fst := by
  induction m with
  | nil => simp [lookupK]
  | cons p rest ih =>
    obtain ⟨k0, v0⟩ := p
    by_cases h0 : k0 = k
    · subst h0; simp [lookupK]
    · simp only [lookupK, if_neg h0, ih, List.map_cons, List.mem_cons]
      constructor
      · intro h hor
        cases hor with
        | inl he => exact h0 he.symm
        | inr hm => exact h hm
      · intro h hm
        exact h (Or.inr hm)

theorem lookupK_isSome_iff {α : Type} (m : List (String × α)) (k : String) :
    (lookupK m k).isSome = true ↔ k ∈ m.map Prod.fst := by
  cases h : lookupK m k with
  | none =>
    have h2 := (lookupK_none_iff m k).mp h
    simp [h2]
  | some v =>
    simp only [Option.isSome_some, true_iff]
    exact List.mem_map_of_mem Prod.fst (lookupK_mem h)

theorem keys_setKey {α : Type} (m : List (String × α)) (k : String) (v : α) :
    (setKey m k v).map Prod.fst =
      if (lookupK m k).isSome then m.map Prod.fst else m.map Prod.fst ++ [k] := by
  induction m with
  | nil => simp [setKey, lookupK]
  | cons p rest ih =>
    obtain ⟨k0, v0⟩ := p
    by_cases h0 : k0 = k
    · subst h0; simp [setKey, lookupK]
    · simp only [setKey, if_neg h0, lookupK, List.map_cons, ih]
      by_cases h1 : (lookupK rest k).isSome
      · simp [h1, if_neg h0]
      · simp only [Bool.not_eq_true] at h1
        simp [h1, if_neg h0]

theorem keys_delKey {α : Type} (m : List (String × α)) (k : String) :
    (delKey m k).map Prod.fst = (m.map Prod.fst).filter (fun x => x ≠ k) := by
  induction m with
  | nil => simp [delKey]
  | cons p rest ih =>
    obtain ⟨k0, v0⟩ := p
    by_cases h0 : k0 = k
    · rw [delKey_cons_eq v0 rest h0]
      subst h0
      simp [List.filter_cons, ih]
    · rw [delKey_cons_ne v0 rest h0]
      simp [List.filter_cons, h0, ih]

theorem delKey_not_mem {α : Type} {m : List (String × α)} {k : String}
    (h : lookupK m k = none) : delKey m k = m := by
  rw [lookupK_none_iff] at h
  rw [delKey, List.filter_eq_self]
  intro p hp
  simp only [decide_eq_true_eq]
  intro hk
  exact h (hk ▸ List.mem_map_of_mem Prod.fst hp)

theorem setKey_fresh {α : Type} {m : List (String × α)} {k : String}
    (v : α) (h : lookupK m k = none) : setKey m k v = m ++ [(k, v)] := by
  induction m with
  | nil => simp [setKey]
  | cons p rest ih =>
    obtain ⟨k0, v0⟩ := p
    simp only [lookupK] at h
    by_cases h0 : k0 = k
    · rw [if_pos h0] at h; cases h
    · rw [if_neg h0] at h
      simp [setKey, if_neg h0, ih h]

theorem delKey_setKey_fresh {α : Type} {m : List (String × α)} {k : String}
    (v : α) (h : lookupK m k = none) : delKey (setKey m k v) k = m := by
  rw [setKey_fresh v h, delKey, List.filter_append]
  have h1 : List.filter (fun p => decide (p.1 ≠ k)) [(k, v)] = [] := by
    simp
  rw [h1, List.append_nil]
  exact delKey_not_mem h

theorem mem_insertSet (s : List String) (x y : String) :
    y ∈ insertSet s x ↔ y = x ∨ y ∈ s := by
  rw [insertSet]
  by_cases h : x ∈ s
  · rw [if_pos h]
    constructor
    · exact Or.inr
    · intro hy
      cases hy with
      | inl he => exact he ▸ h
      | inr hm => exact hm
  · rw [if_neg h]
    simp [List.mem_append, or_comm]

theorem eraseSet_not_mem {s : List String} {x : String} (h : x ∉ s) :
    eraseSet s x = s := by
  rw [eraseSet, List.filter_eq_self]
  intro y hy
  simp only [decide_eq_true_eq]
  intro he
  exact h (he ▸ hy)

theorem eraseSet_insertSet {s : List String} {x : String} (h : x ∉ s) :
    eraseSet (insertSet s x) x = s := by
  rw [insertSet, if_neg h, eraseSet, List.filter_append]
  have h1 : eraseSet s x = s := eraseSet_not_mem h
  rw [eraseSet] at h1
  rw [h1]
  simp

theorem insertSet_mem {s : List String} {x : String} (h : x ∈ s) :
    insertSet s x = s := by
  rw [insertSet, if_pos h]

theorem mem_setKey {α : Type} {m : List (String × α)} {k : String} {v : α}
    {p : String × α} (h : p ∈ setKey m k v) : p ∈ m ∨ p = (k, v) := by
  induction m with
  | nil => simpa [setKey] using h
  | cons q rest ih =>
    obtain ⟨k0, v0⟩ := q
    by_cases h0 : k0 = k
    · subst h0
      rw [setKey, if_pos rfl] at h
      rcases List.mem_cons.mp h with he | hm
      · exact Or.inr he
      · exact Or.inl (List.mem_cons_of_mem _ hm)
    · rw [setKey, if_neg h0] at h
      rcases List.mem_cons.mp h with he | hm
      · exact Or.inl (he ▸ List.mem_cons_self _ _)
      · rcases ih hm with hq | hq
        · exact Or.inl (List.mem_cons_of_mem _ hq)
        · exact Or.inr hq

theorem mem_delKey {α : Type} {m : List (String × α)} {k : String}
    {p : String × α} (h : p ∈ delKey m k) : p ∈ m :=
  List.mem_of_mem_filter h

theorem insertSet_insertSet (s : List String) (x : String) :
    insertSet (insertSet s x) x = insertSet s x :=
  insertSet_mem ((mem_insertSet s x x).mpr (Or.inl rfl))

theorem mem_eraseSet (s : List String) (x y : String) :
    y ∈ eraseSet s x ↔ y ∈ s ∧ y ≠ x := by
  simp [eraseSet, List.mem_filter]

theorem eraseSet_eraseSet (s : List String) (x : String) :
    eraseSet (eraseSet s x) x = eraseSet s x :=
  eraseSet_not_mem (by simp [mem_eraseSet])

theorem lookupK_map_entries {α β : Type} (f : String → α → β)
    (m : List (String × α)) (k : String) :
    lookupK (m.map (fun p => (p.1, f p.1 p.2))) k = (lookupK m k).map (f k) := by
  induction m with
  | nil => simp [lookupK]
  | cons p rest ih =>
    obtain ⟨k0, v0⟩ := p
    by_cases h0 : k0 = k
    · subst h0; simp [lookupK]
    · simp [lookupK, h0, ih]

theorem keys_map_entries {α β : Type} (f : String → α → β)
    (m : List (String × α)) :
    (m.map (fun p => (p.1, f p.1 p.2))).map Prod.fst = m.map Prod.fst := by
  induction m with
  | nil => simp
  | cons p rest ih => simp [ih]

/-! ### `#updateCallback` / `#removeCallback` loops, tag variant -/

theorem addTags_lookup (m : List (String × TagEntry)) (u : String)
    (ts : List String) (k : String) :
    lookupK (addTags m u ts).1 k =
      (lookupK m k).map
        (fun e => if k ∈ ts then { e with uuids := insertSet e.uuids u } else e) := by
  induction ts generalizing m with
  | nil =>
    cases h : lookupK m k <;> simp [addTags, h]
  | cons t rest ih =>
    simp only [addTags]
    cases h : lookupK m t with
    | none =>
      rw [ih]
      by_cases hk : k = t
      · subst hk; rw [h]; simp
      · cases h2 : lookupK m k with
        | none => simp
        | some e => simp [hk]
    | some e =>
      simp only
      rw [ih, lookupK_setKey]
      by_cases hk : k = t
      · subst hk
        rw [if_pos rfl, h]
        simp [insertSet_insertSet]
      · rw [if_neg hk]
        cases h2 : lookupK m k with
        | none => simp
        | some e2 => simp [hk]

theorem addTags_keys (m : List (String × TagEntry)) (u : String)
    (ts : List String) :
    (addTags m u ts).1.map Prod.fst = m.map Prod.fst := by
  induction ts generalizing m with
  | nil => simp [addTags]
  | cons t rest ih =>
    simp only [addTags]
    cases h : lookupK m t with
    | none => exact ih m
    | some e =>
      simp only
      rw [ih, keys_setKey]
      simp [h]

theorem addTags_flag (m : List (String × TagEntry)) (u : String)
    (ts : List String) :
    (addTags m u ts).2 = ts.any (fun t => (lookupK m t).isSome) := by
  induction ts generalizing m with
  | nil => simp [addTags]
  | cons t rest ih =>
    simp only [addTags, List.any_cons]
    cases h : lookupK m t with
    | none => simp [h, ih]
    | some e => simp [h]

theorem removeTags_lookup (m : List (String × TagEntry)) (u : String)
    (ts : List String) (k : String) :
    lookupK (removeTags m u ts) k =
      (lookupK m k).map
        (fun e => if k ∈ ts then { e with uuids := eraseSet e.uuids u } else e) := by
  induction ts generalizing m with
  | nil =>
    cases h : lookupK m k <;> simp [removeTags, h]
  | cons t rest ih =>
    simp only [removeTags]
    cases h : lookupK m t with
    | none =>
      rw [ih]
      by_cases hk : k = t
      · subst hk; rw [h]; simp
      · cases h2 : lookupK m k with
        | none => simp
        | some e => simp [hk]
    | some e =>
      rw [ih, lookupK_setKey]
      by_cases hk : k = t
      · subst hk
        rw [if_pos rfl, h]
        simp [eraseSet_eraseSet]
      · rw [if_neg hk]
        cases h2 : lookupK m k with
        | none => simp
        | some e2 => simp [hk]

theorem removeTags_keys (m : List (String × TagEntry)) (u : String)
    (ts : List String) :
    (removeTags m u ts).map Prod.fst = m.map Prod.fst := by
  induction ts generalizing m with
  | nil => simp [removeTags]
  | cons t rest ih =>
    simp only [removeTags]
    cases h : lookupK m t with
    | none => exact ih m
    | some e =>
      rw [ih, keys_setKey]
      simp [h]

/-! ### `#updateCallback` / `#removeCallback` loops, context variant -/

theorem addCtxs_lookup (m : List (String × CtxEntry)) (i : String)
    (cs : List String) (k : String) :
    lookupK (addCtxs m i cs).1 k =
      (lookupK m k).map
        (fun e => if k ∈ cs then { e with ids := insertSet e.ids i } else e) := by
  induction cs generalizing m with
  | nil =>
    cases h : lookupK m k <;> simp [addCtxs, h]
  | cons c rest ih =>
    simp only [addCtxs]
    cases h : lookupK m c with
    | none =>
      rw [ih]
      by_cases hk : k = c
      · subst hk; rw [h]; simp
      · cases h2 : lookupK m k with
        | none => simp
        | some e => simp [hk]
    | some e =>
      simp only
      rw [ih, lookupK_setKey]
      by_cases hk : k = c
      · subst hk
        rw [if_pos rfl, h]
        simp [insertSet_insertSet]
      · rw [if_neg hk]
        cases h2 : lookupK m k with
        | none => simp
        | some e2 => simp [hk]

theorem addCtxs_keys (m : List (String × CtxEntry)) (i : String)
    (cs : List String) :
    (addCtxs m i cs).1.map Prod.fst = m.map Prod.fst := by
  induction cs generalizing m with
  | nil => simp [addCtxs]
  | cons c rest ih =>
    simp only [addCtxs]
    cases h : lookupK m c with
    | none => exact ih m
    | some e =>
      simp only
      rw [ih, keys_setKey]
      simp [h]

theorem addCtxs_flag (m : List (String × CtxEntry)) (i : String)
    (cs : List String) :
    (addCtxs m i cs).2 = cs.any (fun c => (lookupK m c).isSome) := by
  induction cs generalizing m with
  | nil => simp [addCtxs]
  | cons c rest ih =>
    simp only [addCtxs, List.any_cons]
    cases h : lookupK m c with
    | none => simp [h, ih]
    | some e => simp [h]

theorem addCtxs_entries {m : List (String × CtxEntry)} {i : String}
    {cs : List String} {p : String × CtxEntry}
    (h : p ∈ (addCtxs m i cs).1) :
    p ∈ m ∨ ∃ e, (p.1, e) ∈ m ∧ p.2 = { e with ids := insertSet e.ids i } ∧ p.1 ∈ cs := by
  induction cs generalizing m with
  | nil => exact Or.inl (by simpa [addCtxs] using h)
  | cons c rest ih =>
    simp only [addCtxs] at h
    cases h2 : lookupK m c with
    | none =>
      rw [h2] at h
      rcases ih h with hm | ⟨e, he, hv, hc⟩
      · exact Or.inl hm
      · exact Or.inr ⟨e, he, hv, List.mem_cons_of_mem _ hc⟩
    | some e0 =>
      rw [h2] at h
      simp only at h
      rcases ih h with hm | ⟨e, he, hv, hc⟩
      · rcases mem_setKey hm with hm2 | hp
        · exact Or.inl hm2
        · have h1 : p.1 = c := congrArg Prod.fst hp
          refine Or.inr ⟨e0, ?_, ?_, ?_⟩
          · rw [h1]; exact lookupK_mem h2
          · rw [hp]
          · rw [h1]; exact List.mem_cons_self _ _
      · rcases mem_setKey he with he2 | hp
        · exact Or.inr ⟨e, he2, hv, List.mem_cons_of_mem _ hc⟩
        · have h1 : p.1 = c := congrArg Prod.fst hp
          have h2e : e = { e0 with ids := insertSet e0.ids i } :=
            congrArg Prod.snd hp
          refine Or.inr ⟨e0, ?_, ?_, ?_⟩
          · rw [h1]; exact lookupK_mem h2
          · rw [hv, h2e]
            simp [insertSet_insertSet]
          · rw [h1]; exact List.mem_cons_self _ _

theorem ctxRemoveLoop_fst (m : List (String × CtxEntry)) (o : CtxObject) :
    (ctxRemoveLoop m o).1 =
      m.map (fun p => (p.1,
        if o.id ∈ p.2.ids ∧ belongs o p.1 = true
        then { p.2 with ids := eraseSet p.2.ids o.id } else p.2)) := by
  induction m with
  | nil => simp [ctxRemoveLoop]
  | cons p rest ih =>
    obtain ⟨c, e⟩ := p
    simp only [ctxRemoveLoop, List.map_cons]
    by_cases h1 : o.id ∈ e.ids
    · by_cases h2 : belongs o c = true
      · simp [h1, h2, ih]
      · simp [h1, h2, ih]
    · simp [h1, ih]

theorem ctxRemoveLoop_snd (m : List (String × CtxEntry)) (o : CtxObject) :
    (ctxRemoveLoop m o).2 =
      m.any (fun p => o.id ∈ p.2.ids ∧ ¬ belongs o p.1 = true) := by
  induction m with
  | nil => simp [ctxRemoveLoop]
  | cons p rest ih =>
    obtain ⟨c, e⟩ := p
    simp only [ctxRemoveLoop, List.any_cons]
    by_cases h1 : o.id ∈ e.ids
    · by_cases h2 : belongs o c = true
      · simp [h1, h2, ih]
      · simp [h1, h2, ih]
    · simp [h1, ih]

theorem mem_dedupCtx (cs : List String) (c : String) :
    c ∈ dedupCtx cs ↔ c ∈ cs := by
  induction cs with
  | nil => simp [dedupCtx]
  | cons c0 rest ih =>
    simp only [dedupCtx, List.mem_cons, List.mem_filter, ih,
      decide_eq_true_eq]
    by_cases h : c = c0
    · simp [h]
    · simp [h, ih]

theorem ctxWrap_id (o : CtxObject) : (ctxWrap o).id = o.id := by
  rw [ctxWrap]; split <;> rfl

theorem ctxWrap_context (o : CtxObject) : (ctxWrap o).context = o.context := by
  rw [ctxWrap]; split <;> rfl

theorem belongs_ctxWrap (o : CtxObject) (c : String) :
    belongs (ctxWrap o) c = belongs o c := by
  rw [belongs, belongs, ctxWrap_id, ctxWrap_context]

/-! ### `subscribe` / `unsubscribe` loops -/

theorem tagSubscribeLoop_skip (m : List (String × TagEntry))
    (ts : List String) (k : String) (hk : k ∉ ts) :
    lookupK (tagSubscribeLoop m ts).1 k = lookupK m k := by
  induction ts generalizing m with
  | nil => simp [tagSubscribeLoop]
  | cons t rest ih =>
    simp only [List.mem_cons, not_or] at hk
    simp only [tagSubscribeLoop]
    cases h : lookupK m t with
    | some e =>
      rw [ih _ hk.2, lookupK_setKey, if_neg hk.1]
    | none =>
      simp only
      rw [ih _ hk.2, lookupK_setKey, if_neg hk.1]

theorem tagSubscribeLoop_mem (m : List (String × TagEntry))
    (ts : List String) (k : String) (hnd : ts.Nodup) (hk : k ∈ ts) :
    lookupK (tagSubscribeLoop m ts).1 k =
      some (match lookupK m k with
            | some e => { e with count := e.count + 1 }
            | none => { uuids := [], count := 1 }) := by
  induction ts generalizing m with
  | nil => cases hk
  | cons t rest ih =>
    have hnd2 := hnd
    rw [List.nodup_cons] at hnd2
    simp only [tagSubscribeLoop]
    by_cases hkt : k = t
    · subst hkt
      cases h : lookupK m k with
      | some e =>
        rw [tagSubscribeLoop_skip _ _ _ hnd2.1, lookupK_setKey, if_pos rfl]
      | none =>
        simp only
        rw [tagSubscribeLoop_skip _ _ _ hnd2.1, lookupK_setKey, if_pos rfl]
    · have hkr : k ∈ rest := by
        rcases List.mem_cons.mp hk with h | h
        · exact absurd h hkt
        · exact h
      cases h : lookupK m t with
      | some e =>
        rw [ih _ hnd2.2 hkr, lookupK_setKey, if_neg hkt]
      | none =>
        simp only
        rw [ih _ hnd2.2 hkr, lookupK_setKey, if_neg hkt]

theorem ctxSubscribeLoop_skip (m : List (String × CtxEntry))
    (cs : List String) (k : String) (hk : k ∉ cs) :
    lookupK (ctxSubscribeLoop m cs).1 k = lookupK m k := by
  induction cs generalizing m with
  | nil => simp [ctxSubscribeLoop]
  | cons c rest ih =>
    simp only [List.mem_cons, not_or] at hk
    simp only [ctxSubscribeLoop]
    cases h : lookupK m c with
    | some e =>
      rw [ih _ hk.2, lookupK_setKey, if_neg hk.1]
    | none =>
      simp only
      rw [ih _ hk.2, lookupK_setKey, if_neg hk.1]

theorem ctxSubscribeLoop_mem (m : List (String × CtxEntry))
    (cs : List String) (k : String) (hnd : cs.Nodup) (hk : k ∈ cs) :
    lookupK (ctxSubscribeLoop m cs).1 k =
      some (match lookupK m k with
            | some e => { e with count := e.count + 1 }
            | none => { ids := [], count := 1 }) := by
  induction cs generalizing m with
  | nil => cases hk
  | cons c rest ih =>
    have hnd2 := hnd
    rw [List.nodup_cons] at hnd2
    simp only [ctxSubscribeLoop]
    by_cases hkc : k = c
    · subst hkc
      cases h : lookupK m k with
      | some e =>
        rw [ctxSubscribeLoop_skip _ _ _ hnd2.1, lookupK_setKey, if_pos rfl]
      | none =>
        simp only
        rw [ctxSubscribeLoop_skip _ _ _ hnd2.1, lookupK_setKey, if_pos rfl]
    · have hkr : k ∈ rest := by
        rcases List.mem_cons.mp hk with h | h
        · exact absurd h hkc
        · exact h
      cases h : lookupK m c with
      | some e =>
        rw [ih _ hnd2.2 hkr, lookupK_setKey, if_neg hkc]
      | none =>
        simp only
        rw [ih _ hnd2.2 hkr, lookupK_setKey, if_neg hkc]

theorem tagSubscribeLoop_counts (m : List (String × TagEntry))
    (ts : List String) (h : ∀ p ∈ m, 0 < p.2.count) :
    ∀ p ∈ (tagSubscribeLoop m ts).1, 0 < p.2.count := by
  induction ts generalizing m with
  | nil => simpa [tagSubscribeLoop] using h
  | cons t rest ih =>
    simp only [tagSubscribeLoop]
    cases he : lookupK m t with
    | some e =>
      apply ih
      intro p hp
      rcases mem_setKey hp with hm | hq
      · exact h p hm
      · have h0 : 0 < e.count := h _ (lookupK_mem he)
        rw [hq]
        simp only
        omega
    | none =>
      simp only
      apply ih
      intro p hp
      rcases mem_setKey hp with hm | hq
      · exact h p hm
      · rw [hq]
        norm_num

theorem tagUnsubscribeLoop_counts (ts : List String) :
    ∀ (m m' : List (String × TagEntry)) (us : List String),
      (∀ p ∈ m, 0 < p.2.count) →
      tagUnsubscribeLoop m ts = some (m', us) →
      ∀ p ∈ m', 0 < p.2.count := by
  induction ts with
  | nil =>
    intro m m' us h heq
    simp only [tagUnsubscribeLoop, Option.some.injEq] at heq
    cases heq
    exact h
  | cons t rest ih =>
    intro m m' us h heq
    simp only [tagUnsubscribeLoop] at heq
    cases he : lookupK m t with
    | none => rw [he] at heq; cases heq
    | some e =>
      rw [he] at heq
      dsimp only at heq
      by_cases hz : e.count - 1 = 0
      · rw [if_pos hz] at heq
        cases hrec : tagUnsubscribeLoop (delKey m t) rest with
        | none => rw [hrec] at heq; cases heq
        | some r =>
          rw [hrec] at heq
          simp only [Option.some.injEq] at heq
          have hdel : ∀ p ∈ delKey m t, 0 < p.2.count :=
            fun p hp => h p (mem_delKey hp)
          have h2 := ih (delKey m t) r.1 r.2 hdel (by rw [hrec])
          have h3 : r.1 = m' := congrArg Prod.fst heq
          rw [← h3]
          exact h2
      · rw [if_neg hz] at heq
        have hset : ∀ p ∈ setKey m t { e with count := e.count - 1 },
            0 < p.2.count := by
          intro p hp
          rcases mem_setKey hp with hm | hq
          · exact h p hm
          · have h0 : 0 < e.count := h _ (lookupK_mem he)
            rw [hq]
            simp only
            omega
        exact ih _ m' us hset heq

theorem keys_map_pair {α β : Type} (g : String × α → β)
    (m : List (String × α)) :
    (m.map (fun p => (p.1, g p))).map Prod.fst = m.map Prod.fst := by
  induction m with
  | nil => rfl
  | cons p rest ih => simp [ih]

theorem lookupK_map_pair {α β : Type} (g : String × α → β)
    (m : List (String × α)) (k : String) :
    lookupK (m.map (fun p => (p.1, g p))) k =
      (lookupK m k).map (fun v => g (k, v)) := by
  induction m with
  | nil => simp [lookupK]
  | cons p rest ih =>
    obtain ⟨k0, v0⟩ := p
    by_cases h0 : k0 = k
    · subst h0; simp [lookupK]
    · simp [lookupK, h0, ih]

/-! ## Claim theorems -/

/-- C1: the claim states that unsubscribing a label evicts exactly the
cached objects whose only surviving subscribed label it was, keeping
objects matched by another active label.  The code does the opposite:
with contexts `a` (ids o, p) and `b` (ids o) subscribed, object `o`
filed under `a` and `b` and object `p` filed only under `a`,
`unsubscribe(["a"])` deletes `o` (still matched by the active context
`b`) and keeps `p` (whose only label was the removed one), because the
eviction test `if (keysLeft) delete` is inverted relative to its own
comment. -/
theorem unsubscribe_eviction_inverted :
    ctxUnsubscribe
      { contextMap := [("a", { ids := ["o", "p"], count := 1 }),
                       ("b", { ids := ["o"], count := 1 })],
        objectMap :=
          [("o", { id := "o", context := ["a", "b"], payload := [],
                   graffitiProxy := false, proxyLayers := 0 }),
           ("p", { id := "p", context := ["a"], payload := [],
                   graffitiProxy := false, proxyLayers := 0 })] }
      [some "a"] =
    some ({ contextMap := [("b", { ids := ["o"], count := 1 })],
            objectMap :=
              [("p", { id := "p", context := ["a"], payload := [],
                       graffitiProxy := false, proxyLayers := 0 })] },
          some ["a"]) := by
  decide

/-- C10: the cache identifier is the bare concatenation
`object._by + object._key`, which is not injective: owner `"ab"` with
key `"c"` and owner `"a"` with key `"bc"` both map to `"abc"`, and
pushing both objects through `#updateCallback` leaves a single Cache
entry that the second push overwrote. -/
theorem objectUUID_collision :
    objectUUID { _by := "ab", _key := "c", _tags := ["x"], payload := [],
                 _id := none, proxyLayers := 0 } = some "abc" ∧
    objectUUID { _by := "a", _key := "bc", _tags := ["x"], payload := [],
                 _id := none, proxyLayers := 0 } = some "abc" ∧
    ("ab" : String) ≠ "a" ∧ ("c" : String) ≠ "bc" ∧
    tagUpdateCallback
      { tagMap := [("x", { uuids := [], count := 1 })], objectMap := [] }
      { _by := "ab", _key := "c", _tags := ["x"], payload := [],
        _id := none, proxyLayers := 0 } =
      some ({ tagMap := [("x", { uuids := ["abc"], count := 1 })],
              objectMap := [("abc",
                tagWrap "abc" { _by := "ab", _key := "c", _tags := ["x"],
                                payload := [], _id := none, proxyLayers := 0 })] },
            none) ∧
    tagUpdateCallback
      { tagMap := [("x", { uuids := ["abc"], count := 1 })],
        objectMap := [("abc",
          tagWrap "abc" { _by := "ab", _key := "c", _tags := ["x"],
                          payload := [], _id := none, proxyLayers := 0 })] }
      { _by := "a", _key := "bc", _tags := ["x"], payload := [],
        _id := none, proxyLayers := 0 } =
      some ({ tagMap := [("x", { uuids := ["abc"], count := 1 })],
              objectMap := [("abc",
                tagWrap "abc" { _by := "a", _key := "bc", _tags := ["x"],
                                payload := [], _id := none, proxyLayers := 0 })] },
            some (snapshotT
              (tagWrap "abc" { _by := "ab", _key := "c", _tags := ["x"],
                               payload := [], _id := none, proxyLayers := 0 }))) := by
  decide

/-- C8: an outbound request of any kind (update, remove, subscribe,
unsubscribe, ls) attempted while the connection is not open fails at
once with no channel write; when the connection is open, exactly the
one message is written. -/
theorem request_closed_rejects :
    (∀ (msg : Msg) (r : Except String String),
      request false msg r =
        (Except.error "not connected to graffiti server", [])) ∧
    (∀ (msg : Msg) (r : Except String String),
      request true msg r = (r, [msg])) := by
  constructor
  · intro msg r
    rfl
  · intro msg r
    rfl

/-- C6: on a (re)connection open event, in both variants, the Cache is
fully cleared and every registered label slot is reset to an empty
matched-id set (keys and refcounts preserved), and one batched
subscribe request carrying all registered labels is issued, or none
when no labels are registered. -/
theorem onOpen_resync (st : TagState) (cst : CtxState) :
    (tagOnOpen st).1.objectMap = [] ∧
    (tagOnOpen st).1.tagMap.map Prod.fst = st.tagMap.map Prod.fst ∧
    (∀ t, lookupK (tagOnOpen st).1.tagMap t =
      (lookupK st.tagMap t).map (fun e => { e with uuids := [] })) ∧
    (tagOnOpen st).2 =
      (if st.tagMap.isEmpty then none else some (st.tagMap.map Prod.fst)) ∧
    (ctxOnOpen cst).1.objectMap = [] ∧
    (ctxOnOpen cst).1.contextMap.map Prod.fst = cst.contextMap.map Prod.fst ∧
    (∀ c, lookupK (ctxOnOpen cst).1.contextMap c =
      (lookupK cst.contextMap c).map (fun e => { e with ids := [] })) ∧
    (ctxOnOpen cst).2 =
      (if cst.contextMap.isEmpty then none
       else some (cst.contextMap.map Prod.fst)) := by
  refine ⟨rfl, ?_, ?_, ?_, rfl, ?_, ?_, ?_⟩
  · exact keys_map_pair _ st.tagMap
  · intro t
    exact lookupK_map_pair _ st.tagMap t
  · simp only [tagOnOpen]
    rw [keys_map_pair]
    cases st.tagMap <;> simp
  · exact keys_map_pair _ cst.contextMap
  · intro c
    exact lookupK_map_pair _ cst.contextMap c
  · simp only [ctxOnOpen]
    rw [keys_map_pair]
    cases cst.contextMap <;> simp

theorem tagSubscribe_single_new {s : TagState} {t : String}
    (h : lookupK s.tagMap t = none) :
    tagSubscribe s [some t] =
      ({ s with tagMap := setKey s.tagMap t { uuids := [], count := 1 } },
       some [t]) := by
  simp [tagSubscribe, tagSubscribeLoop, h]

theorem tagSubscribe_single_old {s : TagState} {t : String} {e : TagEntry}
    (h : lookupK s.tagMap t = some e) :
    tagSubscribe s [some t] =
      ({ s with tagMap := setKey s.tagMap t { e with count := e.count + 1 } },
       none) := by
  simp [tagSubscribe, tagSubscribeLoop, h]

theorem tagUnsubscribe_single_pos {s : TagState} {t : String} {e : TagEntry}
    (h : lookupK s.tagMap t = some e) (hc : ¬ e.count - 1 = 0) :
    tagUnsubscribe s [some t] =
      some ({ s with tagMap := setKey s.tagMap t { e with count := e.count - 1 } },
            none) := by
  simp [tagUnsubscribe, tagUnsubscribeLoop, h, hc]

theorem tagUnsubscribe_single_zero {s : TagState} {t : String} {e : TagEntry}
    (h : lookupK s.tagMap t = some e) (hc : e.count - 1 = 0) :
    tagUnsubscribe s [some t] =
      some ({ s with tagMap := delKey s.tagMap t }, some [t]) := by
  simp [tagUnsubscribe, tagUnsubscribeLoop, h, hc]

/-- C3: starting from an untracked label `t`, subscribing twice and
unsubscribing once leaves `t` registered with refcount 1; a second
unsubscribe removes `t` and issues exactly one outbound unsubscribe
request `[t]`; and every registered slot always carries a positive
refcount (preserved by `subscribe` and by any non-faulting
`unsubscribe`). -/
theorem refcount_lifecycle (st : TagState) (t : String)
    (hnew : lookupK st.tagMap t = none) :
    (∃ s3 s4 : TagState,
      tagUnsubscribe
        ((tagSubscribe (tagSubscribe st [some t]).1 [some t]).1) [some t] =
        some (s3, none) ∧
      lookupK s3.tagMap t = some { uuids := [], count := 1 } ∧
      tagUnsubscribe s3 [some t] = some (s4, some [t]) ∧
      lookupK s4.tagMap t = none) ∧
    (∀ (s : TagState) (labels : List (Option String)),
      TagCounts s → TagCounts (tagSubscribe s labels).1) ∧
    (∀ (s s' : TagState) (labels : List (Option String))
        (req : Option (List String)),
      TagCounts s → tagUnsubscribe s labels = some (s', req) → TagCounts s') := by
  refine ⟨?_, ?_, ?_⟩
  · have l1 : lookupK ({ st with tagMap := setKey st.tagMap t { uuids := [], count := 1 } } : TagState).tagMap t = some { uuids := [], count := 1 } := by
      dsimp only
      rw [lookupK_setKey, if_pos rfl]
    have l2 : lookupK ({ st with tagMap := setKey (setKey st.tagMap t { uuids := [], count := 1 }) t { uuids := [], count := 1 + 1 } } : TagState).tagMap t = some { uuids := [], count := 1 + 1 } := by
      dsimp only
      rw [lookupK_setKey, if_pos rfl]
    have l3 : lookupK ({ st with tagMap := setKey (setKey (setKey st.tagMap t { uuids := [], count := 1 }) t { uuids := [], count := 1 + 1 }) t { uuids := [], count := 1 + 1 - 1 } } : TagState).tagMap t = some { uuids := [], count := 1 + 1 - 1 } := by
      dsimp only
      rw [lookupK_setKey, if_pos rfl]
    refine ⟨({ st with tagMap := setKey (setKey (setKey st.tagMap t { uuids := [], count := 1 }) t { uuids := [], count := 1 + 1 }) t { uuids := [], count := 1 + 1 - 1 } } : TagState), ({ st with tagMap := delKey (setKey (setKey (setKey st.tagMap t { uuids := [], count := 1 }) t { uuids := [], count := 1 + 1 }) t { uuids := [], count := 1 + 1 - 1 }) t } : TagState), ?_, ?_, ?_, ?_⟩
    · rw [tagSubscribe_single_new hnew]
      dsimp only
      rw [tagSubscribe_single_old l1]
      dsimp only
      rw [tagUnsubscribe_single_pos l2 (by decide)]
    · dsimp only
      rw [lookupK_setKey, if_pos rfl]
      norm_num
    · rw [tagUnsubscribe_single_zero l3 (by decide)]
    · rw [lookupK_delKey, if_pos rfl]
  · intro s labels hc
    intro p hp
    simp only [tagSubscribe] at hp
    exact tagSubscribeLoop_counts s.tagMap _ hc p hp
  · intro s s' labels req hc hun
    simp only [tagUnsubscribe] at hun
    cases hloop : tagUnsubscribeLoop s.tagMap (labels.filterMap id) with
    | none => rw [hloop] at hun; cases hun
    | some r =>
      rw [hloop] at hun
      simp only [Option.map, Option.some.injEq] at hun
      have hmap : s'.tagMap = r.1 := by
        have h5 := congrArg Prod.fst hun
        simp only at h5
        rw [← h5]
      intro p hp
      rw [hmap] at hp
      exact tagUnsubscribeLoop_counts (labels.filterMap id) s.tagMap r.1 r.2 hc
        (by rw [hloop]) p hp

/-- Witness for `refcount_lifecycle`: the scenario run from the empty
state with label `"t"`. -/
theorem refcount_lifecycle_witness :
    lookupK ({ tagMap := [], objectMap := [] } : TagState).tagMap "t" = none ∧
    ((∃ s3 s4 : TagState,
      tagUnsubscribe
        ((tagSubscribe (tagSubscribe ({ tagMap := [], objectMap := [] } : TagState)
          [some "t"]).1 [some "t"]).1) [some "t"] =
        some (s3, none) ∧
      lookupK s3.tagMap "t" = some { uuids := [], count := 1 } ∧
      tagUnsubscribe s3 [some "t"] = some (s4, some ["t"]) ∧
      lookupK s4.tagMap "t" = none) ∧
    (∀ (s : TagState) (labels : List (Option String)),
      TagCounts s → TagCounts (tagSubscribe s labels).1) ∧
    (∀ (s s' : TagState) (labels : List (Option String))
        (req : Option (List String)),
      TagCounts s → tagUnsubscribe s labels = some (s', req) → TagCounts s')) :=
  ⟨rfl, refcount_lifecycle { tagMap := [], objectMap := [] } "t" rfl⟩

/-- C7: the claim that the inbound-update wrap step is idempotent in
both cited handlers is refuted by the tag variant, which has no marker:
applying the tag-variant `#updateCallback` to the already-wrapped object
it has just installed wraps it a second time (two proxy layers). -/
theorem wrap_not_idempotent_tag :
    tagUpdateCallback { tagMap := [("x", { uuids := [], count := 1 })], objectMap := [] } { _by := "u", _key := "k", _tags := ["x"], payload := [], _id := none, proxyLayers := 0 } =
      some ({ tagMap := [("x", { uuids := ["uk"], count := 1 })], objectMap := [("uk", { _by := "u", _key := "k", _tags := ["x"], payload := [], _id := some "uk", proxyLayers := 1 })] }, none) ∧
    tagUpdateCallback { tagMap := [("x", { uuids := ["uk"], count := 1 })], objectMap := [("uk", { _by := "u", _key := "k", _tags := ["x"], payload := [], _id := some "uk", proxyLayers := 1 })] } { _by := "u", _key := "k", _tags := ["x"], payload := [], _id := some "uk", proxyLayers := 1 } =
      some ({ tagMap := [("x", { uuids := ["uk"], count := 1 })], objectMap := [("uk", { _by := "u", _key := "k", _tags := ["x"], payload := [], _id := some "uk", proxyLayers := 2 })] }, some { _by := "u", _key := "k", _tags := ["x"], payload := [], _id := none, proxyLayers := 0 }) := by
  decide

/-- C7 (amended): in the context variant the `__graffitiProxy` marker
makes the wrap step idempotent: `#updateCallback` always returns the
marker-guarded wrap of its argument, wrapping an already-marked object
is the identity, and re-applying the wrap never stacks a second proxy
layer. -/
theorem wrap_idempotent_ctx (o : CtxObject) (st st' : CtxState) :
    ctxWrap (ctxWrap o) = ctxWrap o ∧
    (ctxWrap o).graffitiProxy = true ∧
    (o.graffitiProxy = true → ctxWrap o = o) ∧
    (ctxUpdateCallback st o).2 = ctxWrap o ∧
    (ctxUpdateCallback st' (ctxUpdateCallback st o).2).2 =
      (ctxUpdateCallback st o).2 := by
  have hmark : ∀ b : CtxObject, b.graffitiProxy = true → ctxWrap b = b := by
    intro b hb
    rw [ctxWrap, if_pos hb]
  have hwmark : (ctxWrap o).graffitiProxy = true := by
    rw [ctxWrap]
    by_cases h : o.graffitiProxy
    · rw [if_pos h]; exact h
    · rw [if_neg h]
  have hidem : ctxWrap (ctxWrap o) = ctxWrap o := hmark _ hwmark
  have hcb : ∀ (s : CtxState) (b : CtxObject), (ctxUpdateCallback s b).2 = ctxWrap b := by
    intro s b
    rfl
  refine ⟨hidem, hwmark, hmark o, hcb st o, ?_⟩
  rw [hcb st' (ctxUpdateCallback st o).2, hcb st o, hidem]

/-- Witness for `wrap_idempotent_ctx` at a concrete already-marked
object: the marked-object conjunct is dischargeable. -/
theorem wrap_idempotent_ctx_witness :
    ({ id := "o", context := [], payload := [], graffitiProxy := true,
       proxyLayers := 1 } : CtxObject).graffitiProxy = true ∧
    (ctxWrap { id := "o", context := [], payload := [], graffitiProxy := true,
               proxyLayers := 1 } =
      { id := "o", context := [], payload := [], graffitiProxy := true,
        proxyLayers := 1 }) :=
  ⟨rfl,
   (wrap_idempotent_ctx
      { id := "o", context := [], payload := [], graffitiProxy := true,
        proxyLayers := 1 }
      { contextMap := [], objectMap := [] }
      { contextMap := [], objectMap := [] }).2.2.1 rfl⟩

theorem addTags_no_match (m : List (String × TagEntry)) (u : String)
    (ts : List String) (h : ∀ t ∈ ts, lookupK m t = none) :
    addTags m u ts = (m, false) := by
  induction ts with
  | nil => rfl
  | cons t rest ih =>
    simp only [addTags]
    rw [h t (List.mem_cons_self _ _)]
    exact ih (fun t2 ht2 => h t2 (List.mem_cons_of_mem _ ht2))

theorem addCtxs_no_match (m : List (String × CtxEntry)) (i : String)
    (cs : List String) (h : ∀ c ∈ cs, lookupK m c = none) :
    addCtxs m i cs = (m, false) := by
  induction cs with
  | nil => rfl
  | cons c rest ih =>
    simp only [addCtxs]
    rw [h c (List.mem_cons_self _ _)]
    exact ih (fun c2 hc2 => h c2 (List.mem_cons_of_mem _ hc2))

theorem tagUpdateCallback_discard {st : TagState} {o : TagObject}
    {uuid : String} (hu : objectUUID o = some uuid)
    (hall : ∀ t ∈ o._tags, lookupK st.tagMap t = none) :
    tagUpdateCallback st o = some (st, none) := by
  simp only [tagUpdateCallback, hu]
  rw [addTags_no_match st.tagMap uuid o._tags hall]
  rfl

theorem tagUpdateCallback_subscribed {st : TagState} {o : TagObject}
    {uuid : String} (hu : objectUUID o = some uuid)
    (hflag : (addTags st.tagMap uuid o._tags).2 = true) :
    tagUpdateCallback st o =
      some ({ tagMap := (addTags st.tagMap uuid o._tags).1,
              objectMap := setKey st.objectMap uuid (tagWrap uuid o) },
            (lookupK st.objectMap uuid).map snapshotT) := by
  simp only [tagUpdateCallback, hu]
  rw [hflag]
  simp

theorem ctxUpdateCallback_discard {st : CtxState} {o : CtxObject}
    (hall : ∀ c ∈ o.context ++ [o.id], lookupK st.contextMap c = none) :
    (ctxUpdateCallback st o).1 = st := by
  simp only [ctxUpdateCallback]
  rw [addCtxs_no_match st.contextMap o.id (o.context ++ [o.id]) hall]
  rfl

theorem ctxUpdateCallback_subscribed {st : CtxState} {o : CtxObject}
    (hflag : (addCtxs st.contextMap o.id (o.context ++ [o.id])).2 = true) :
    (ctxUpdateCallback st o).1 =
      { contextMap := (addCtxs st.contextMap o.id (o.context ++ [o.id])).1,
        objectMap := setKey st.objectMap o.id (ctxWrap o) } := by
  simp only [ctxUpdateCallback]
  rw [hflag]
  simp

/-- C4: for an inbound update push, in both variants: when the object's
labels (plus its own id in the context variant) do not meet the
subscribed labels, the push is discarded and the engine state is
unchanged; otherwise the object's id is added to every matching label's
set, the wrapped object is installed in the Cache (replacing any
existing entry), and non-matching label slots and other cache entries
are untouched. -/
theorem inbound_update_push (st : TagState) (o : TagObject)
    (cst : CtxState) (co : CtxObject)
    (hby : ¬ o._by = "") (hkey : ¬ o._key = "") :
    ((∀ t ∈ o._tags, lookupK st.tagMap t = none) →
      tagUpdateCallback st o = some (st, none)) ∧
    (∀ t0, t0 ∈ o._tags → (lookupK st.tagMap t0).isSome →
      ∃ st1 orig, tagUpdateCallback st o = some (st1, orig) ∧
        lookupK st1.objectMap (o._by ++ o._key) =
          some (tagWrap (o._by ++ o._key) o) ∧
        (∀ t e, t ∈ o._tags → lookupK st.tagMap t = some e →
          lookupK st1.tagMap t =
            some { e with uuids := insertSet e.uuids (o._by ++ o._key) }) ∧
        (∀ t, t ∉ o._tags → lookupK st1.tagMap t = lookupK st.tagMap t) ∧
        (∀ u, ¬ u = o._by ++ o._key →
          lookupK st1.objectMap u = lookupK st.objectMap u)) ∧
    ((∀ c ∈ co.context ++ [co.id], lookupK cst.contextMap c = none) →
      (ctxUpdateCallback cst co).1 = cst) ∧
    (∀ c0, c0 ∈ co.context ++ [co.id] → (lookupK cst.contextMap c0).isSome →
      lookupK (ctxUpdateCallback cst co).1.objectMap co.id =
        some (ctxWrap co) ∧
      (∀ c e, c ∈ co.context ++ [co.id] → lookupK cst.contextMap c = some e →
        lookupK (ctxUpdateCallback cst co).1.contextMap c =
          some { e with ids := insertSet e.ids co.id }) ∧
      (∀ c, c ∉ co.context ++ [co.id] →
        lookupK (ctxUpdateCallback cst co).1.contextMap c =
          lookupK cst.contextMap c) ∧
      (∀ i, ¬ i = co.id →
        lookupK (ctxUpdateCallback cst co).1.objectMap i =
          lookupK cst.objectMap i)) := by
  have hu : objectUUID o = some (o._by ++ o._key) := by
    rw [objectUUID, if_neg]
    intro hor
    cases hor with
    | inl h => exact hby h
    | inr h => exact hkey h
  refine ⟨?_, ?_, ?_, ?_⟩
  · intro hall
    exact tagUpdateCallback_discard hu hall
  · intro t0 ht0 hsome
    have hflag : (addTags st.tagMap (o._by ++ o._key) o._tags).2 = true := by
      rw [addTags_flag]
      exact List.any_eq_true.mpr ⟨t0, ht0, hsome⟩
    refine ⟨_, _, tagUpdateCallback_subscribed hu hflag, ?_, ?_, ?_, ?_⟩
    · dsimp only
      rw [lookupK_setKey, if_pos rfl]
    · intro t e ht he
      dsimp only
      rw [addTags_lookup, he]
      simp [ht]
    · intro t ht
      dsimp only
      rw [addTags_lookup]
      cases h2 : lookupK st.tagMap t with
      | none => simp
      | some e => simp [ht]
    · intro u huu
      dsimp only
      rw [lookupK_setKey, if_neg huu]
  · intro hall
    exact ctxUpdateCallback_discard hall
  · intro c0 hc0 hsome
    have hflag : (addCtxs cst.contextMap co.id (co.context ++ [co.id])).2 = true := by
      rw [addCtxs_flag]
      exact List.any_eq_true.mpr ⟨c0, hc0, hsome⟩
    rw [ctxUpdateCallback_subscribed hflag]
    refine ⟨?_, ?_, ?_, ?_⟩
    · dsimp only
      rw [lookupK_setKey, if_pos rfl]
    · intro c e hc he
      dsimp only
      rw [addCtxs_lookup, he]
      simp [hc]
    · intro c hc
      dsimp only
      rw [addCtxs_lookup]
      cases h2 : lookupK cst.contextMap c with
      | none => simp
      | some e => simp [hc]
    · intro i hii
      dsimp only
      rw [lookupK_setKey, if_neg hii]

/-- Witness for `inbound_update_push` at a concrete state and objects
with nonempty owner and key. -/
theorem inbound_update_push_witness :
    (¬ ({ _by := "u", _key := "k", _tags := ["x"], payload := [], _id := none, proxyLayers := 0 } : TagObject)._by = "") ∧
    (¬ ({ _by := "u", _key := "k", _tags := ["x"], payload := [], _id := none, proxyLayers := 0 } : TagObject)._key = "") ∧
    (((∀ t ∈ ({ _by := "u", _key := "k", _tags := ["x"], payload := [], _id := none, proxyLayers := 0 } : TagObject)._tags, lookupK ({ tagMap := [], objectMap := [] } : TagState).tagMap t = none) →
      tagUpdateCallback { tagMap := [], objectMap := [] } { _by := "u", _key := "k", _tags := ["x"], payload := [], _id := none, proxyLayers := 0 } = some ({ tagMap := [], objectMap := [] }, none)) ∧
    (∀ t0, t0 ∈ ({ _by := "u", _key := "k", _tags := ["x"], payload := [], _id := none, proxyLayers := 0 } : TagObject)._tags → (lookupK ({ tagMap := [], objectMap := [] } : TagState).tagMap t0).isSome →
      ∃ st1 orig, tagUpdateCallback { tagMap := [], objectMap := [] } { _by := "u", _key := "k", _tags := ["x"], payload := [], _id := none, proxyLayers := 0 } = some (st1, orig) ∧
        lookupK st1.objectMap ("u" ++ "k") = some (tagWrap ("u" ++ "k") { _by := "u", _key := "k", _tags := ["x"], payload := [], _id := none, proxyLayers := 0 }) ∧
        (∀ t e, t ∈ ({ _by := "u", _key := "k", _tags := ["x"], payload := [], _id := none, proxyLayers := 0 } : TagObject)._tags → lookupK ({ tagMap := [], objectMap := [] } : TagState).tagMap t = some e →
          lookupK st1.tagMap t = some { e with uuids := insertSet e.uuids ("u" ++ "k") }) ∧
        (∀ t, t ∉ ({ _by := "u", _key := "k", _tags := ["x"], payload := [], _id := none, proxyLayers := 0 } : TagObject)._tags → lookupK st1.tagMap t = lookupK ({ tagMap := [], objectMap := [] } : TagState).tagMap t) ∧
        (∀ u, ¬ u = "u" ++ "k" → lookupK st1.objectMap u = lookupK ({ tagMap := [], objectMap := [] } : TagState).objectMap u)) ∧
    ((∀ c ∈ ({ id := "o", context := ["a"], payload := [], graffitiProxy := false, proxyLayers := 0 } : CtxObject).context ++ [({ id := "o", context := ["a"], payload := [], graffitiProxy := false, proxyLayers := 0 } : CtxObject).id], lookupK ({ contextMap := [], objectMap := [] } : CtxState).contextMap c = none) →
      (ctxUpdateCallback { contextMap := [], objectMap := [] } { id := "o", context := ["a"], payload := [], graffitiProxy := false, proxyLayers := 0 }).1 = { contextMap := [], objectMap := [] }) ∧
    (∀ c0, c0 ∈ ({ id := "o", context := ["a"], payload := [], graffitiProxy := false, proxyLayers := 0 } : CtxObject).context ++ [({ id := "o", context := ["a"], payload := [], graffitiProxy := false, proxyLayers := 0 } : CtxObject).id] → (lookupK ({ contextMap := [], objectMap := [] } : CtxState).contextMap c0).isSome →
      lookupK (ctxUpdateCallback { contextMap := [], objectMap := [] } { id := "o", context := ["a"], payload := [], graffitiProxy := false, proxyLayers := 0 }).1.objectMap "o" = some (ctxWrap { id := "o", context := ["a"], payload := [], graffitiProxy := false, proxyLayers := 0 }) ∧
      (∀ c e, c ∈ ({ id := "o", context := ["a"], payload := [], graffitiProxy := false, proxyLayers := 0 } : CtxObject).context ++ [({ id := "o", context := ["a"], payload := [], graffitiProxy := false, proxyLayers := 0 } : CtxObject).id] → lookupK ({ contextMap := [], objectMap := [] } : CtxState).contextMap c = some e →
        lookupK (ctxUpdateCallback { contextMap := [], objectMap := [] } { id := "o", context := ["a"], payload := [], graffitiProxy := false, proxyLayers := 0 }).1.contextMap c = some { e with ids := insertSet e.ids "o" }) ∧
      (∀ c, c ∉ ({ id := "o", context := ["a"], payload := [], graffitiProxy := false, proxyLayers := 0 } : CtxObject).context ++ [({ id := "o", context := ["a"], payload := [], graffitiProxy := false, proxyLayers := 0 } : CtxObject).id] →
        lookupK (ctxUpdateCallback { contextMap := [], objectMap := [] } { id := "o", context := ["a"], payload := [], graffitiProxy := false, proxyLayers := 0 }).1.contextMap c = lookupK ({ contextMap := [], objectMap := [] } : CtxState).contextMap c) ∧
      (∀ i, ¬ i = "o" → lookupK (ctxUpdateCallback { contextMap := [], objectMap := [] } { id := "o", context := ["a"], payload := [], graffitiProxy := false, proxyLayers := 0 }).1.objectMap i = lookupK ({ contextMap := [], objectMap := [] } : CtxState).objectMap i))) :=
  ⟨by decide, by decide,
   inbound_update_push { tagMap := [], objectMap := [] }
     { _by := "u", _key := "k", _tags := ["x"], payload := [], _id := none, proxyLayers := 0 }
     { contextMap := [], objectMap := [] }
     { id := "o", context := ["a"], payload := [], graffitiProxy := false, proxyLayers := 0 }
     (by decide) (by decide)⟩

/-- C5 counterexample: the claim says an inbound remove push deletes
the id from every label set that lists it but that the object does not
belong to.  With context sets `a` and `b` both listing `"o"` and a
remove push for object `"o"` carrying only context `a`, the code keeps
`"o"` in `b`'s set (and keeps the object cached): it deletes the id
only from the sets of labels the object does belong to. -/
theorem inbound_remove_counterexample :
    ctxRemoveCallback
      { contextMap := [("a", { ids := ["o"], count := 1 }), ("b", { ids := ["o"], count := 1 })],
        objectMap := [("o", { id := "o", context := ["a", "b"], payload := [], graffitiProxy := true, proxyLayers := 1 })] }
      { id := "o", context := ["a"], payload := [], graffitiProxy := true, proxyLayers := 1 } =
      { contextMap := [("a", { ids := [], count := 1 }), ("b", { ids := ["o"], count := 1 })],
        objectMap := [("o", { id := "o", context := ["a", "b"], payload := [], graffitiProxy := true, proxyLayers := 1 })] } ∧
    ¬ belongs { id := "o", context := ["a"], payload := [], graffitiProxy := true, proxyLayers := 1 } "b" = true := by
  decide

/-- C5 (amended): an inbound remove push deletes the object's id
exactly from the sets of labels the object belongs to (tag variant: its
`_tags`; context variant: its contexts plus its own id); sets that list
the id under a label the object does not belong to keep it untouched.
The tag variant then always evicts the object from the Cache, while the
context variant evicts it iff no slot still lists the id under a
non-belonging label (the `supported` flag) and it was cached. -/
theorem inbound_remove_amended (st : TagState) (o : TagObject)
    (cst : CtxState) (co : CtxObject)
    (hby : ¬ o._by = "") (hkey : ¬ o._key = "") :
    (∃ st', tagRemoveCallback st o = some st' ∧
      lookupK st'.objectMap (o._by ++ o._key) = none ∧
      (∀ t e, lookupK st.tagMap t = some e →
        lookupK st'.tagMap t =
          some (if t ∈ o._tags
                then { e with uuids := eraseSet e.uuids (o._by ++ o._key) }
                else e)) ∧
      (∀ u, ¬ u = o._by ++ o._key →
        lookupK st'.objectMap u = lookupK st.objectMap u)) ∧
    (∀ c, lookupK (ctxRemoveCallback cst co).contextMap c =
      (lookupK cst.contextMap c).map
        (fun e => if co.id ∈ e.ids ∧ belongs co c = true
                  then { e with ids := eraseSet e.ids co.id } else e)) ∧
    ((ctxRemoveCallback cst co).objectMap =
      (if ctxSupported cst co = true then cst.objectMap
       else delKey cst.objectMap co.id)) := by
  have hu : objectUUID o = some (o._by ++ o._key) := by
    rw [objectUUID, if_neg]
    intro hor
    cases hor with
    | inl h => exact hby h
    | inr h => exact hkey h
  refine ⟨⟨{ tagMap := removeTags st.tagMap (o._by ++ o._key) o._tags,
             objectMap := delKey st.objectMap (o._by ++ o._key) },
           ?_, ?_, ?_, ?_⟩, ?_, ?_⟩
  · simp only [tagRemoveCallback, hu]
    rfl
  · dsimp only
    rw [lookupK_delKey, if_pos rfl]
  · intro t e he
    dsimp only
    rw [removeTags_lookup, he]
    rfl
  · intro u hne
    dsimp only
    rw [lookupK_delKey, if_neg hne]
  · intro c
    simp only [ctxRemoveCallback]
    rw [ctxRemoveLoop_fst, lookupK_map_pair]
  · simp only [ctxRemoveCallback]
    by_cases hsup : ctxSupported cst co = true
    · rw [if_pos hsup]
      have h2 : (ctxRemoveLoop cst.contextMap co).2 = true := by
        rw [ctxRemoveLoop_snd]
        exact hsup
      simp [h2]
    · rw [if_neg hsup]
      have h2 : (ctxRemoveLoop cst.contextMap co).2 = false := by
        rw [ctxRemoveLoop_snd]
        exact Bool.eq_false_iff.mpr hsup
      cases hpres : (lookupK cst.objectMap co.id).isSome with
      | true => simp [h2, hpres]
      | false =>
        have hnone : lookupK cst.objectMap co.id = none := by
          cases h3 : lookupK cst.objectMap co.id with
          | none => rfl
          | some v => rw [h3] at hpres; cases hpres
        simp [h2, hpres, delKey_not_mem hnone]

/-- Witness for `inbound_remove_amended` at concrete states and objects
with nonempty owner and key. -/
theorem inbound_remove_amended_witness :
    (¬ ({ _by := "u", _key := "k", _tags := ["x"], payload := [], _id := none, proxyLayers := 0 } : TagObject)._by = "") ∧
    (¬ ({ _by := "u", _key := "k", _tags := ["x"], payload := [], _id := none, proxyLayers := 0 } : TagObject)._key = "") ∧
    ((∃ st', tagRemoveCallback { tagMap := [("x", { uuids := ["uk"], count := 1 })], objectMap := [("uk", { _by := "u", _key := "k", _tags := ["x"], payload := [], _id := some "uk", proxyLayers := 1 })] } { _by := "u", _key := "k", _tags := ["x"], payload := [], _id := none, proxyLayers := 0 } = some st' ∧
      lookupK st'.objectMap ("u" ++ "k") = none ∧
      (∀ t e, lookupK ({ tagMap := [("x", { uuids := ["uk"], count := 1 })], objectMap := [("uk", { _by := "u", _key := "k", _tags := ["x"], payload := [], _id := some "uk", proxyLayers := 1 })] } : TagState).tagMap t = some e →
        lookupK st'.tagMap t = some (if t ∈ ({ _by := "u", _key := "k", _tags := ["x"], payload := [], _id := none, proxyLayers := 0 } : TagObject)._tags then { e with uuids := eraseSet e.uuids ("u" ++ "k") } else e)) ∧
      (∀ u, ¬ u = "u" ++ "k" → lookupK st'.objectMap u = lookupK ({ tagMap := [("x", { uuids := ["uk"], count := 1 })], objectMap := [("uk", { _by := "u", _key := "k", _tags := ["x"], payload := [], _id := some "uk", proxyLayers := 1 })] } : TagState).objectMap u)) ∧
    (∀ c, lookupK (ctxRemoveCallback { contextMap := [("a", { ids := ["o"], count := 1 })], objectMap := [("o", { id := "o", context := ["a"], payload := [], graffitiProxy := true, proxyLayers := 1 })] } { id := "o", context := ["a"], payload := [], graffitiProxy := true, proxyLayers := 1 }).contextMap c =
      (lookupK ({ contextMap := [("a", { ids := ["o"], count := 1 })], objectMap := [("o", { id := "o", context := ["a"], payload := [], graffitiProxy := true, proxyLayers := 1 })] } : CtxState).contextMap c).map
        (fun e => if ({ id := "o", context := ["a"], payload := [], graffitiProxy := true, proxyLayers := 1 } : CtxObject).id ∈ e.ids ∧ belongs { id := "o", context := ["a"], payload := [], graffitiProxy := true, proxyLayers := 1 } c = true then { e with ids := eraseSet e.ids ({ id := "o", context := ["a"], payload := [], graffitiProxy := true, proxyLayers := 1 } : CtxObject).id } else e)) ∧
    ((ctxRemoveCallback { contextMap := [("a", { ids := ["o"], count := 1 })], objectMap := [("o", { id := "o", context := ["a"], payload := [], graffitiProxy := true, proxyLayers := 1 })] } { id := "o", context := ["a"], payload := [], graffitiProxy := true, proxyLayers := 1 }).objectMap =
      (if ctxSupported { contextMap := [("a", { ids := ["o"], count := 1 })], objectMap := [("o", { id := "o", context := ["a"], payload := [], graffitiProxy := true, proxyLayers := 1 })] } { id := "o", context := ["a"], payload := [], graffitiProxy := true, proxyLayers := 1 } = true then ({ contextMap := [("a", { ids := ["o"], count := 1 })], objectMap := [("o", { id := "o", context := ["a"], payload := [], graffitiProxy := true, proxyLayers := 1 })] } : CtxState).objectMap
       else delKey ({ contextMap := [("a", { ids := ["o"], count := 1 })], objectMap := [("o", { id := "o", context := ["a"], payload := [], graffitiProxy := true, proxyLayers := 1 })] } : CtxState).objectMap ({ id := "o", context := ["a"], payload := [], graffitiProxy := true, proxyLayers := 1 } : CtxObject).id))) :=
  ⟨by decide, by decide,
   inbound_remove_amended
     { tagMap := [("x", { uuids := ["uk"], count := 1 })], objectMap := [("uk", { _by := "u", _key := "k", _tags := ["x"], payload := [], _id := some "uk", proxyLayers := 1 })] }
     { _by := "u", _key := "k", _tags := ["x"], payload := [], _id := none, proxyLayers := 0 }
     { contextMap := [("a", { ids := ["o"], count := 1 })], objectMap := [("o", { id := "o", context := ["a"], payload := [], graffitiProxy := true, proxyLayers := 1 })] }
     { id := "o", context := ["a"], payload := [], graffitiProxy := true, proxyLayers := 1 }
     (by decide) (by decide)⟩

/-- C9 counterexample: the claim says `subscribe` filters out null and
empty entries, so no registry record is created for an empty-string
label.  The source filters only `tag != null`: subscribing to
`["", "a"]` from the empty registry creates a record for `""` with
refcount 1 and even includes `""` in the outbound subscribe request. -/
theorem subscribe_empty_label_counterexample :
    tagSubscribe { tagMap := [], objectMap := [] } [some "", some "a"] =
      ({ tagMap := [("", { uuids := [], count := 1 }),
                    ("a", { uuids := [], count := 1 })], objectMap := [] },
       some ["", "a"]) ∧
    (lookupK (tagSubscribe { tagMap := [], objectMap := [] }
        [some "", some "a"]).1.tagMap "").isSome = true := by
  decide

/-- C9 (amended): `subscribe` (both variants) drops exactly the null
entries of its argument (empty strings are kept); every surviving label
not in the filtered list keeps its slot unchanged, every surviving
already-tracked label has its refcount incremented, and every surviving
new label — the empty string included — gets a fresh slot with empty
matched-id set and refcount 1. -/
theorem subscribe_filter_amended (st : TagState) (cst : CtxState)
    (labels clabels : List (Option String))
    (hnd : (labels.filterMap id).Nodup)
    (hndc : (clabels.filterMap id).Nodup) :
    tagSubscribe st labels = tagSubscribe st ((labels.filterMap id).map some) ∧
    (∀ t, t ∉ labels.filterMap id →
      lookupK (tagSubscribe st labels).1.tagMap t = lookupK st.tagMap t) ∧
    (∀ t, t ∈ labels.filterMap id →
      lookupK (tagSubscribe st labels).1.tagMap t =
        some (match lookupK st.tagMap t with
              | some e => { e with count := e.count + 1 }
              | none => { uuids := [], count := 1 })) ∧
    ctxSubscribe cst clabels =
      ctxSubscribe cst ((clabels.filterMap id).map some) ∧
    (∀ c, c ∉ clabels.filterMap id →
      lookupK (ctxSubscribe cst clabels).1.contextMap c =
        lookupK cst.contextMap c) ∧
    (∀ c, c ∈ clabels.filterMap id →
      lookupK (ctxSubscribe cst clabels).1.contextMap c =
        some (match lookupK cst.contextMap c with
              | some e => { e with count := e.count + 1 }
              | none => { ids := [], count := 1 })) := by
  refine ⟨?_, ?_, ?_, ?_, ?_, ?_⟩
  · simp only [tagSubscribe, List.filterMap_map, Function.comp_def, id_eq,
      List.filterMap_some]
  · intro t ht
    simp only [tagSubscribe]
    exact tagSubscribeLoop_skip st.tagMap _ t ht
  · intro t ht
    simp only [tagSubscribe]
    exact tagSubscribeLoop_mem st.tagMap _ t hnd ht
  · simp only [ctxSubscribe, List.filterMap_map, Function.comp_def, id_eq,
      List.filterMap_some]
  · intro c hc
    simp only [ctxSubscribe]
    exact ctxSubscribeLoop_skip cst.contextMap _ c hc
  · intro c hc
    simp only [ctxSubscribe]
    exact ctxSubscribeLoop_mem cst.contextMap _ c hndc hc

/-- Witness for `subscribe_filter_amended` at concrete argument lists
containing a null and an empty-string entry. -/
theorem subscribe_filter_amended_witness :
    (([some "", none, some "a"].filterMap (@id (Option String))).Nodup) ∧
    (([none, some "c"].filterMap (@id (Option String))).Nodup) ∧
    (tagSubscribe { tagMap := [], objectMap := [] } [some "", none, some "a"] = tagSubscribe { tagMap := [], objectMap := [] } (([some "", none, some "a"].filterMap id).map some) ∧
    (∀ t, t ∉ [some "", none, some "a"].filterMap (@id (Option String)) →
      lookupK (tagSubscribe { tagMap := [], objectMap := [] } [some "", none, some "a"]).1.tagMap t = lookupK ({ tagMap := [], objectMap := [] } : TagState).tagMap t) ∧
    (∀ t, t ∈ [some "", none, some "a"].filterMap (@id (Option String)) →
      lookupK (tagSubscribe { tagMap := [], objectMap := [] } [some "", none, some "a"]).1.tagMap t =
        some (match lookupK ({ tagMap := [], objectMap := [] } : TagState).tagMap t with
              | some e => { e with count := e.count + 1 }
              | none => { uuids := [], count := 1 })) ∧
    ctxSubscribe { contextMap := [], objectMap := [] } [none, some "c"] = ctxSubscribe { contextMap := [], objectMap := [] } (([none, some "c"].filterMap id).map some) ∧
    (∀ c, c ∉ [none, some "c"].filterMap (@id (Option String)) →
      lookupK (ctxSubscribe { contextMap := [], objectMap := [] } [none, some "c"]).1.contextMap c = lookupK ({ contextMap := [], objectMap := [] } : CtxState).contextMap c) ∧
    (∀ c, c ∈ [none, some "c"].filterMap (@id (Option String)) →
      lookupK (ctxSubscribe { contextMap := [], objectMap := [] } [none, some "c"]).1.contextMap c =
        some (match lookupK ({ contextMap := [], objectMap := [] } : CtxState).contextMap c with
              | some e => { e with count := e.count + 1 }
              | none => { ids := [], count := 1 }))) :=
  ⟨by decide, by decide,
   subscribe_filter_amended { tagMap := [], objectMap := [] }
     { contextMap := [], objectMap := [] }
     [some "", none, some "a"] [none, some "c"] (by decide) (by decide)⟩

/-! ### Rollback lemmas -/

theorem MapObsEq_refl {α : Type} (m : List (String × α)) : MapObsEq m m :=
  ⟨rfl, fun _ => rfl⟩

theorem belongs_iff (o : CtxObject) (c : String) :
    belongs o c = true ↔ (c ∈ o.context ∨ c = o.id) := by
  simp [belongs]

theorem any_eq_false_iff {α : Type} (l : List α) (p : α → Bool) :
    l.any p = false ↔ ∀ x ∈ l, ¬ p x = true := by
  rw [← Bool.not_eq_true, List.any_eq_true]
  push_neg
  rfl

theorem tag_remove_noop_lookup {m : List (String × TagEntry)} {u : String}
    {ts : List String} (hset : ∀ p ∈ m, u ∉ p.2.uuids) (k : String) :
    lookupK (removeTags m u ts) k = lookupK m k := by
  rw [removeTags_lookup]
  cases he : lookupK m k with
  | none => rfl
  | some e =>
    have hnotin : u ∉ e.uuids := hset _ (lookupK_mem he)
    simp only [Option.map]
    by_cases hk : k ∈ ts
    · rw [if_pos hk, eraseSet_not_mem hnotin]
    · rw [if_neg hk]

theorem tag_add_remove_lookup {m : List (String × TagEntry)} {u : String}
    {ts : List String} (hset : ∀ p ∈ m, u ∉ p.2.uuids) (k : String) :
    lookupK (removeTags (addTags m u ts).1 u ts) k = lookupK m k := by
  rw [removeTags_lookup, addTags_lookup]
  cases he : lookupK m k with
  | none => rfl
  | some e =>
    have hnotin : u ∉ e.uuids := hset _ (lookupK_mem he)
    simp only [Option.map]
    by_cases hk : k ∈ ts
    · simp [hk, eraseSet_insertSet hnotin]
    · simp [hk]

theorem addCtxs_belongs {m : List (String × CtxEntry)} {i : String}
    {cs : List String} {B : String → Prop}
    (h0 : ∀ p ∈ m, i ∈ p.2.ids → B p.1) (hcs : ∀ c ∈ cs, B c) :
    ∀ p ∈ (addCtxs m i cs).1, i ∈ p.2.ids → B p.1 := by
  intro p hp hid
  rcases addCtxs_entries hp with hm | ⟨e, _, _, hc⟩
  · exact h0 p hm hid
  · exact hcs _ hc

theorem ctxRemove_supported_false {cm : List (String × CtxEntry)}
    {o : CtxObject}
    (h : ∀ p ∈ cm, o.id ∈ p.2.ids → belongs o p.1 = true) :
    (ctxRemoveLoop cm o).2 = false := by
  rw [ctxRemoveLoop_snd, any_eq_false_iff]
  intro p hp
  simp only [decide_eq_true_eq, Bool.not_eq_true, not_and, not_not]
  intro hid
  rw [h p hp hid]
  simp

theorem ctx_add_remove_keys (m : List (String × CtxEntry)) (i : String)
    (cs : List String) (o' : CtxObject) :
    (ctxRemoveLoop (addCtxs m i cs).1 o').1.map Prod.fst = m.map Prod.fst := by
  rw [ctxRemoveLoop_fst, keys_map_pair, addCtxs_keys]

theorem ctx_add_remove_lookup {m : List (String × CtxEntry)} {o' : CtxObject}
    {i : String} {cs : List String} (hid : o'.id = i)
    (hbel : ∀ k, k ∈ cs ↔ belongs o' k = true)
    (hset : ∀ p ∈ m, i ∉ p.2.ids) (k : String) :
    lookupK (ctxRemoveLoop (addCtxs m i cs).1 o').1 k = lookupK m k := by
  rw [ctxRemoveLoop_fst, lookupK_map_pair, addCtxs_lookup]
  cases he : lookupK m k with
  | none => rfl
  | some e =>
    have hnotin : i ∉ e.ids := hset _ (lookupK_mem he)
    simp only [Option.map]
    by_cases hk : k ∈ cs
    · have hb := (hbel k).mp hk
      simp [hk, hid, hb, mem_insertSet, eraseSet_insertSet hnotin]
    · simp [hk, hid, hnotin]

theorem lookupK_delKey_self {α : Type} (m : List (String × α)) (k : String) :
    lookupK (delKey m k) k = none := by
  rw [lookupK_delKey, if_pos rfl]

theorem tagUpdate_unfold (st : TagState) (o : TagObject)
    (myID freshKey : String) (r : Bool) :
    tagUpdate st o myID freshKey r =
      (match tagUpdateCallback st
          { o with _by := myID,
                   _key := if o._key = "" then freshKey else o._key } with
       | none => none
       | some (st1, originalObject) =>
         if r = false then some st1
         else match originalObject with
              | some orig => (tagUpdateCallback st1 orig).map (·.1)
              | none =>
                tagRemoveCallback st1
                  { o with _by := myID,
                           _key := if o._key = "" then freshKey else o._key }) := by
  simp only [tagUpdate]
  by_cases hk0 : o._key = ""
  · simp [hk0]
  · simp [hk0]

/-- C2 counterexample: the claim says a rejected local update leaves
Cache and registry observably identical to before, reinstalling the
previous snapshot when the object pre-existed.  Both cited sites
violate this for a pre-existing object.  Context variant: `#post` of
the already-cached object `"o"` (payload `title = old`) whose request
is rejected runs `#removeCallback` unconditionally, so the object is
removed from the Cache instead of the old snapshot being reinstalled.
Tag variant: a rejected `update` of the already-cached object `"uk"`
that adds the subscribed tag `"y"` reinstalls the snapshot in the
Cache, but the rollback re-runs `#updateCallback(originalObject)` with
the old `_tags` and never removes the optimistic addition, so `"uk"`
stays in the matched-id set of `"y"` although that set was empty
before: the registry is not restored. -/
theorem post_rollback_counterexample :
    lookupK ({ contextMap := [("c", { ids := ["o"], count := 1 })], objectMap := [("o", { id := "o", context := ["c"], payload := [("title", "old")], graffitiProxy := true, proxyLayers := 1 })] } : CtxState).objectMap "o" = some { id := "o", context := ["c"], payload := [("title", "old")], graffitiProxy := true, proxyLayers := 1 } ∧
    (ctxPost { contextMap := [("c", { ids := ["o"], count := 1 })], objectMap := [("o", { id := "o", context := ["c"], payload := [("title", "old")], graffitiProxy := true, proxyLayers := 1 })] } { id := "o", context := ["c"], payload := [("title", "new")], graffitiProxy := false, proxyLayers := 0 } true).1 =
      { contextMap := [("c", { ids := [], count := 1 })], objectMap := [] } ∧
    lookupK (ctxPost { contextMap := [("c", { ids := ["o"], count := 1 })], objectMap := [("o", { id := "o", context := ["c"], payload := [("title", "old")], graffitiProxy := true, proxyLayers := 1 })] } { id := "o", context := ["c"], payload := [("title", "new")], graffitiProxy := false, proxyLayers := 0 } true).1.objectMap "o" = none ∧
    tagUpdate
      { tagMap := [("x", { uuids := ["uk"], count := 1 }), ("y", { uuids := [], count := 1 })],
        objectMap := [("uk", { _by := "u", _key := "k", _tags := ["x"], payload := [("title", "old")], _id := some "uk", proxyLayers := 1 })] }
      { _by := "", _key := "k", _tags := ["x", "y"], payload := [("title", "new")], _id := none, proxyLayers := 0 }
      "u" "f" true =
      some { tagMap := [("x", { uuids := ["uk"], count := 1 }), ("y", { uuids := ["uk"], count := 1 })],
             objectMap := [("uk", { _by := "u", _key := "k", _tags := ["x"], payload := [("title", "old")], _id := some "uk", proxyLayers := 1 })] } ∧
    lookupK ({ tagMap := [("x", { uuids := ["uk"], count := 1 }), ("y", { uuids := [], count := 1 })],
               objectMap := [("uk", { _by := "u", _key := "k", _tags := ["x"], payload := [("title", "old")], _id := some "uk", proxyLayers := 1 })] } : TagState).tagMap "y" = some { uuids := [], count := 1 } ∧
    some ({ uuids := ["uk"], count := 1 } : TagEntry) ≠ some ({ uuids := [], count := 1 } : TagEntry) := by
  decide

theorem addTags_addTags_lookup (m : List (String × TagEntry)) (u : String)
    (ts1 ts2 : List String) (k : String) :
    lookupK (addTags (addTags m u ts1).1 u ts2).1 k =
      (lookupK m k).map
        (fun e => if k ∈ ts1 ∨ k ∈ ts2
                  then { e with uuids := insertSet e.uuids u } else e) := by
  rw [addTags_lookup, addTags_lookup]
  cases he : lookupK m k with
  | none => rfl
  | some e =>
    simp only [Option.map]
    by_cases h1 : k ∈ ts1
    · by_cases h2 : k ∈ ts2
      · simp [h1, h2, insertSet_insertSet]
      · simp [h1, h2]
    · by_cases h2 : k ∈ ts2
      · simp [h1, h2]
      · simp [h1, h2]

/-- C2 (amended): a rejected local update of a new object (id not
cached and listed in no label set) removes it entirely from the Cache
and from every label's matched-id set, leaving Cache and registry
observably identical to immediately before — in the tag variant
(`update`) and in the context variant (`#post`) alike.  For a
pre-existing object neither variant restores the prior state.  The
tag variant (when both the update and the cached object carry some
subscribed tag) reinstalls the wrapped previous snapshot in the Cache
slot and leaves every other cache entry alone, but the registry ends
with the uuid inserted into the set of every subscribed label carried
by either the update or the old object — so a subscribed tag newly
added by the failed update keeps the uuid, and only slots matching
neither are unchanged.  The context-variant `#post` does not reinstall
the previous snapshot at all: whenever the registry lists the object
id only under labels the object carries, the rejected post removes the
object from the Cache. -/
theorem update_rollback_amended (st : TagState) (o : TagObject)
    (myID freshKey : String) (cst : CtxState) (co : CtxObject)
    (cst2 : CtxState) (co2 : CtxObject)
    (st3 : TagState) (o3 : TagObject) (myID3 freshKey3 : String)
    (oldw : TagObject) (t0 t1 : String)
    (hmy : ¬ myID = "")
    (hkk : ¬ (if o._key = "" then freshKey else o._key) = "")
    (hobj : lookupK st.objectMap
      (myID ++ (if o._key = "" then freshKey else o._key)) = none)
    (hsets : ∀ p ∈ st.tagMap,
      (myID ++ (if o._key = "" then freshKey else o._key)) ∉ p.2.uuids)
    (hobj2 : lookupK cst.objectMap co.id = none)
    (hsets2 : ∀ p ∈ cst.contextMap, co.id ∉ p.2.ids)
    (hpre : (lookupK cst2.objectMap co2.id).isSome = true)
    (hcons : ∀ p ∈ cst2.contextMap, co2.id ∈ p.2.ids →
      (p.1 ∈ co2.context ∨ p.1 = co2.id))
    (hmy3 : ¬ myID3 = "")
    (hkk3 : ¬ (if o3._key = "" then freshKey3 else o3._key) = "")
    (hob : ¬ oldw._by = "") (hok : ¬ oldw._key = "")
    (huid : oldw._by ++ oldw._key =
      myID3 ++ (if o3._key = "" then freshKey3 else o3._key))
    (hpre3 : lookupK st3.objectMap
      (myID3 ++ (if o3._key = "" then freshKey3 else o3._key)) = some oldw)
    (ht1 : t1 ∈ o3._tags) (hs1 : (lookupK st3.tagMap t1).isSome = true)
    (ht0 : t0 ∈ oldw._tags) (hs0 : (lookupK st3.tagMap t0).isSome = true) :
    (∃ st', tagUpdate st o myID freshKey true = some st' ∧ TagObsEq st' st) ∧
    CtxObsEq (ctxPost cst co true).1 cst ∧
    lookupK (ctxPost cst2 co2 true).1.objectMap co2.id = none ∧
    (∃ st', tagUpdate st3 o3 myID3 freshKey3 true = some st' ∧
      lookupK st'.objectMap
          (myID3 ++ (if o3._key = "" then freshKey3 else o3._key)) =
        some (tagWrap
          (myID3 ++ (if o3._key = "" then freshKey3 else o3._key))
          (snapshotT oldw)) ∧
      (∀ u3, ¬ u3 = myID3 ++ (if o3._key = "" then freshKey3 else o3._key) →
        lookupK st'.objectMap u3 = lookupK st3.objectMap u3) ∧
      (∀ k e, lookupK st3.tagMap k = some e →
        lookupK st'.tagMap k =
          some (if k ∈ o3._tags ∨ k ∈ oldw._tags then { e with uuids := insertSet e.uuids (myID3 ++ (if o3._key = "" then freshKey3 else o3._key)) } else e)) ∧
      st'.tagMap.map Prod.fst = st3.tagMap.map Prod.fst) := by
  refine ⟨?_, ?_, ?_, ?_⟩
  · rw [tagUpdate_unfold]
    have huuid : objectUUID
        { o with _by := myID, _key := if o._key = "" then freshKey else o._key } =
        some (myID ++ (if o._key = "" then freshKey else o._key)) := by
      rw [objectUUID]
      dsimp only
      rw [if_neg]
      intro hor
      cases hor with
      | inl h => exact hmy h
      | inr h => exact hkk h
    cases hflag : (addTags st.tagMap
        (myID ++ (if o._key = "" then freshKey else o._key)) o._tags).2 with
    | false =>
      have hall : ∀ t ∈ o._tags, lookupK st.tagMap t = none := by
        intro t ht
        have h3 : o._tags.any (fun t => (lookupK st.tagMap t).isSome) = false := by
          rw [← addTags_flag st.tagMap
            (myID ++ (if o._key = "" then freshKey else o._key)) o._tags]
          exact hflag
        have h4 := (any_eq_false_iff _ _).mp h3 t ht
        cases h5 : lookupK st.tagMap t with
        | none => rfl
        | some e => rw [h5] at h4; simp at h4
      have hdisc := tagUpdateCallback_discard huuid hall
      rw [hdisc]
      dsimp only
      have hrem : tagRemoveCallback st
          { o with _by := myID, _key := if o._key = "" then freshKey else o._key } =
          some { tagMap := removeTags st.tagMap
                   (myID ++ (if o._key = "" then freshKey else o._key)) o._tags,
                 objectMap := delKey st.objectMap
                   (myID ++ (if o._key = "" then freshKey else o._key)) } := by
        simp only [tagRemoveCallback, huuid]
        rfl
      rw [hrem]
      refine ⟨_, rfl, ⟨?_, ?_⟩, ?_⟩
      · dsimp only
        exact removeTags_keys st.tagMap _ o._tags
      · intro k
        dsimp only
        exact tag_remove_noop_lookup hsets k
      · dsimp only
        rw [delKey_not_mem hobj]
        exact MapObsEq_refl st.objectMap
    | true =>
      have hsub := tagUpdateCallback_subscribed huuid hflag
      rw [hsub, hobj]
      dsimp only
      have hrem : tagRemoveCallback
          { tagMap := (addTags st.tagMap
              (myID ++ (if o._key = "" then freshKey else o._key)) o._tags).1,
            objectMap := setKey st.objectMap
              (myID ++ (if o._key = "" then freshKey else o._key))
              (tagWrap (myID ++ (if o._key = "" then freshKey else o._key))
                { o with _by := myID,
                         _key := if o._key = "" then freshKey else o._key }) }
          { o with _by := myID, _key := if o._key = "" then freshKey else o._key } =
          some { tagMap := removeTags (addTags st.tagMap
                   (myID ++ (if o._key = "" then freshKey else o._key)) o._tags).1
                   (myID ++ (if o._key = "" then freshKey else o._key)) o._tags,
                 objectMap := delKey (setKey st.objectMap
                   (myID ++ (if o._key = "" then freshKey else o._key))
                   (tagWrap (myID ++ (if o._key = "" then freshKey else o._key))
                     { o with _by := myID,
                              _key := if o._key = "" then freshKey else o._key }))
                   (myID ++ (if o._key = "" then freshKey else o._key)) } := by
        simp only [tagRemoveCallback, huuid]
        rfl
      rw [hrem]
      refine ⟨_, rfl, ⟨?_, ?_⟩, ?_⟩
      · dsimp only
        rw [removeTags_keys, addTags_keys]
      · intro k
        dsimp only
        exact tag_add_remove_lookup hsets k
      · dsimp only
        rw [delKey_setKey_fresh _ hobj]
        exact MapObsEq_refl st.objectMap
  · simp only [ctxPost, ctxUpdateCallback, ctxRemoveCallback]
    have hwid : (ctxWrap { co with context := dedupCtx co.context }).id = co.id := by
      rw [ctxWrap_id]
    have hwctx : (ctxWrap { co with context := dedupCtx co.context }).context = dedupCtx co.context := by
      rw [ctxWrap_context]
    have hbel : ∀ k, k ∈ dedupCtx co.context ++ [co.id] ↔
        belongs (ctxWrap { co with context := dedupCtx co.context }) k = true := by
      intro k
      simp [belongs_iff, hwctx, hwid]
    have hsupp : (ctxRemoveLoop
        (addCtxs cst.contextMap co.id (dedupCtx co.context ++ [co.id])).1
        (ctxWrap { co with context := dedupCtx co.context })).2 = false := by
      apply ctxRemove_supported_false
      rw [hwid]
      exact addCtxs_belongs (fun p hp hid => absurd hid (hsets2 p hp))
        (fun c hc => (hbel c).mp hc)
    refine ⟨⟨?_, ?_⟩, ?_⟩
    · exact ctx_add_remove_keys cst.contextMap co.id (dedupCtx co.context ++ [co.id]) _
    · intro k
      exact ctx_add_remove_lookup hwid hbel hsets2 k
    · cases hflag : (addCtxs cst.contextMap co.id (dedupCtx co.context ++ [co.id])).2 with
      | true =>
        have hpres : (lookupK (setKey cst.objectMap co.id
            (ctxWrap { co with context := dedupCtx co.context }))
            (ctxWrap { co with context := dedupCtx co.context }).id).isSome = true := by
          rw [hwid, lookupK_setKey, if_pos rfl]
          rfl
        have hcond : (ctxRemoveLoop
            (addCtxs cst.contextMap co.id (dedupCtx co.context ++ [co.id])).1
            (ctxWrap { co with context := dedupCtx co.context })).2 = false ∧
            (lookupK (if true = true then setKey cst.objectMap co.id
                (ctxWrap { co with context := dedupCtx co.context })
              else cst.objectMap)
              (ctxWrap { co with context := dedupCtx co.context }).id).isSome = true :=
          ⟨hsupp, hpres⟩
        rw [if_pos hcond, hwid]
        have h10 : MapObsEq (delKey (setKey cst.objectMap co.id
            (ctxWrap { co with context := dedupCtx co.context })) co.id)
            cst.objectMap := by
          rw [delKey_setKey_fresh _ hobj2]
          exact MapObsEq_refl cst.objectMap
        exact h10
      | false =>
        have hcond : ¬ ((ctxRemoveLoop
            (addCtxs cst.contextMap co.id (dedupCtx co.context ++ [co.id])).1
            (ctxWrap { co with context := dedupCtx co.context })).2 = false ∧
            (lookupK (if false = true then setKey cst.objectMap co.id
                (ctxWrap { co with context := dedupCtx co.context })
              else cst.objectMap)
              (ctxWrap { co with context := dedupCtx co.context }).id).isSome = true) := by
          intro hcon
          have h2 := hcon.2
          rw [hwid] at h2
          have h3 : (lookupK cst.objectMap co.id).isSome = true := h2
          rw [hobj2] at h3
          cases h3
        rw [if_neg hcond]
        exact MapObsEq_refl cst.objectMap
  · simp only [ctxPost, ctxUpdateCallback, ctxRemoveCallback]
    have hwid : (ctxWrap { co2 with context := dedupCtx co2.context }).id = co2.id := by
      rw [ctxWrap_id]
    have hwctx : (ctxWrap { co2 with context := dedupCtx co2.context }).context = dedupCtx co2.context := by
      rw [ctxWrap_context]
    have hbel : ∀ k, k ∈ dedupCtx co2.context ++ [co2.id] ↔
        belongs (ctxWrap { co2 with context := dedupCtx co2.context }) k = true := by
      intro k
      simp [belongs_iff, hwctx, hwid, mem_dedupCtx]
    have hsupp : (ctxRemoveLoop
        (addCtxs cst2.contextMap co2.id (dedupCtx co2.context ++ [co2.id])).1
        (ctxWrap { co2 with context := dedupCtx co2.context })).2 = false := by
      apply ctxRemove_supported_false
      rw [hwid]
      exact addCtxs_belongs
        (fun p hp hid => by
          rw [← (hbel p.1)]
          rcases hcons p hp hid with h1 | h1
          · exact List.mem_append.mpr (Or.inl ((mem_dedupCtx _ _).mpr h1))
          · exact List.mem_append.mpr (Or.inr (List.mem_singleton.mpr h1)))
        (fun c hc => (hbel c).mp hc)
    cases hflag : (addCtxs cst2.contextMap co2.id (dedupCtx co2.context ++ [co2.id])).2 with
    | true =>
      have hpres : (lookupK (setKey cst2.objectMap co2.id
          (ctxWrap { co2 with context := dedupCtx co2.context }))
          (ctxWrap { co2 with context := dedupCtx co2.context }).id).isSome = true := by
        rw [hwid, lookupK_setKey, if_pos rfl]
        rfl
      have hcond : (ctxRemoveLoop
          (addCtxs cst2.contextMap co2.id (dedupCtx co2.context ++ [co2.id])).1
          (ctxWrap { co2 with context := dedupCtx co2.context })).2 = false ∧
          (lookupK (if true = true then setKey cst2.objectMap co2.id
              (ctxWrap { co2 with context := dedupCtx co2.context })
            else cst2.objectMap)
            (ctxWrap { co2 with context := dedupCtx co2.context }).id).isSome = true :=
        ⟨hsupp, hpres⟩
      rw [if_pos hcond, hwid]
      exact lookupK_delKey_self _ co2.id
    | false =>
      have hpres : (lookupK (if false = true then setKey cst2.objectMap co2.id
          (ctxWrap { co2 with context := dedupCtx co2.context })
        else cst2.objectMap)
          (ctxWrap { co2 with context := dedupCtx co2.context }).id).isSome = true := by
        rw [hwid]
        exact hpre
      have hcond : (ctxRemoveLoop
          (addCtxs cst2.contextMap co2.id (dedupCtx co2.context ++ [co2.id])).1
          (ctxWrap { co2 with context := dedupCtx co2.context })).2 = false ∧
          (lookupK (if false = true then setKey cst2.objectMap co2.id
              (ctxWrap { co2 with context := dedupCtx co2.context })
            else cst2.objectMap)
            (ctxWrap { co2 with context := dedupCtx co2.context }).id).isSome = true :=
        ⟨hsupp, hpres⟩
      rw [if_pos hcond, hwid]
      exact lookupK_delKey_self _ co2.id
  · rw [tagUpdate_unfold]
    have huuid : objectUUID
        { o3 with _by := myID3, _key := if o3._key = "" then freshKey3 else o3._key } =
        some (myID3 ++ (if o3._key = "" then freshKey3 else o3._key)) := by
      rw [objectUUID]
      dsimp only
      rw [if_neg]
      intro hor
      cases hor with
      | inl h => exact hmy3 h
      | inr h => exact hkk3 h
    have hflag1 : (addTags st3.tagMap
        (myID3 ++ (if o3._key = "" then freshKey3 else o3._key)) o3._tags).2 = true := by
      rw [addTags_flag]
      exact List.any_eq_true.mpr ⟨t1, ht1, hs1⟩
    rw [tagUpdateCallback_subscribed huuid hflag1, hpre3]
    simp only [Option.map]
    have huuid2 : objectUUID (snapshotT oldw) =
        some (myID3 ++ (if o3._key = "" then freshKey3 else o3._key)) := by
      rw [objectUUID]
      dsimp only [snapshotT]
      rw [if_neg, huid]
      intro hor
      cases hor with
      | inl h => exact hob h
      | inr h => exact hok h
    have hs0mid : (lookupK (addTags st3.tagMap
        (myID3 ++ (if o3._key = "" then freshKey3 else o3._key)) o3._tags).1 t0).isSome = true := by
      rw [addTags_lookup]
      cases h2 : lookupK st3.tagMap t0 with
      | none => rw [h2] at hs0; cases hs0
      | some e => rfl
    have hflag2 : (addTags (addTags st3.tagMap
        (myID3 ++ (if o3._key = "" then freshKey3 else o3._key)) o3._tags).1
        (myID3 ++ (if o3._key = "" then freshKey3 else o3._key))
        (snapshotT oldw)._tags).2 = true := by
      rw [addTags_flag]
      exact List.any_eq_true.mpr ⟨t0, ht0, hs0mid⟩
    have hcall2 : tagUpdateCallback
        { tagMap := (addTags st3.tagMap (myID3 ++ (if o3._key = "" then freshKey3 else o3._key)) o3._tags).1,
          objectMap := setKey st3.objectMap (myID3 ++ (if o3._key = "" then freshKey3 else o3._key)) (tagWrap (myID3 ++ (if o3._key = "" then freshKey3 else o3._key)) { o3 with _by := myID3, _key := if o3._key = "" then freshKey3 else o3._key }) }
        (snapshotT oldw) =
        some ({ tagMap := (addTags (addTags st3.tagMap (myID3 ++ (if o3._key = "" then freshKey3 else o3._key)) o3._tags).1 (myID3 ++ (if o3._key = "" then freshKey3 else o3._key)) (snapshotT oldw)._tags).1,
                objectMap := setKey (setKey st3.objectMap (myID3 ++ (if o3._key = "" then freshKey3 else o3._key)) (tagWrap (myID3 ++ (if o3._key = "" then freshKey3 else o3._key)) { o3 with _by := myID3, _key := if o3._key = "" then freshKey3 else o3._key })) (myID3 ++ (if o3._key = "" then freshKey3 else o3._key)) (tagWrap (myID3 ++ (if o3._key = "" then freshKey3 else o3._key)) (snapshotT oldw)) },
              (lookupK (setKey st3.objectMap (myID3 ++ (if o3._key = "" then freshKey3 else o3._key)) (tagWrap (myID3 ++ (if o3._key = "" then freshKey3 else o3._key)) { o3 with _by := myID3, _key := if o3._key = "" then freshKey3 else o3._key })) (myID3 ++ (if o3._key = "" then freshKey3 else o3._key))).map snapshotT) :=
      tagUpdateCallback_subscribed huuid2 hflag2
    rw [hcall2]
    simp only [Option.map]
    refine ⟨_, rfl, ?_, ?_, ?_, ?_⟩
    · dsimp only
      rw [lookupK_setKey, if_pos rfl]
    · intro u3 hu3
      dsimp only
      rw [lookupK_setKey, if_neg hu3, lookupK_setKey, if_neg hu3]
    · intro k e he
      dsimp only
      rw [addTags_addTags_lookup, he]
      rfl
    · dsimp only
      rw [addTags_keys, addTags_keys]


/-- Witness for `update_rollback_amended`: a new object pushed through
both variants, a pre-existing cached object rejected through the
context-variant post, and a pre-existing cached object rejected through
the tag-variant update that adds a subscribed tag, at concrete
states. -/
theorem update_rollback_amended_witness :
    (¬ ("me" : String) = "") ∧
    (¬ (if ("" : String) = "" then "f1" else "") = "") ∧
    (lookupK ({ tagMap := [("x", { uuids := [], count := 1 })], objectMap := [] } : TagState).objectMap ("me" ++ (if ("" : String) = "" then "f1" else "")) = none) ∧
    (∀ p ∈ ({ tagMap := [("x", { uuids := [], count := 1 })], objectMap := [] } : TagState).tagMap, ("me" ++ (if ("" : String) = "" then "f1" else "")) ∉ p.2.uuids) ∧
    (lookupK ({ contextMap := [("a", { ids := [], count := 1 })], objectMap := [] } : CtxState).objectMap ({ id := "o1", context := ["a"], payload := [], graffitiProxy := false, proxyLayers := 0 } : CtxObject).id = none) ∧
    (∀ p ∈ ({ contextMap := [("a", { ids := [], count := 1 })], objectMap := [] } : CtxState).contextMap, ({ id := "o1", context := ["a"], payload := [], graffitiProxy := false, proxyLayers := 0 } : CtxObject).id ∉ p.2.ids) ∧
    ((lookupK ({ contextMap := [("a", { ids := ["o2"], count := 1 })], objectMap := [("o2", { id := "o2", context := ["a"], payload := [], graffitiProxy := true, proxyLayers := 1 })] } : CtxState).objectMap ({ id := "o2", context := ["a"], payload := [], graffitiProxy := false, proxyLayers := 0 } : CtxObject).id).isSome = true) ∧
    (∀ p ∈ ({ contextMap := [("a", { ids := ["o2"], count := 1 })], objectMap := [("o2", { id := "o2", context := ["a"], payload := [], graffitiProxy := true, proxyLayers := 1 })] } : CtxState).contextMap, ({ id := "o2", context := ["a"], payload := [], graffitiProxy := false, proxyLayers := 0 } : CtxObject).id ∈ p.2.ids → (p.1 ∈ ({ id := "o2", context := ["a"], payload := [], graffitiProxy := false, proxyLayers := 0 } : CtxObject).context ∨ p.1 = ({ id := "o2", context := ["a"], payload := [], graffitiProxy := false, proxyLayers := 0 } : CtxObject).id)) ∧
    (¬ ("u" : String) = "") ∧
    (¬ (if ({ _by := "", _key := "k", _tags := ["x", "y"], payload := [("title", "new")], _id := none, proxyLayers := 0 } : TagObject)._key = "" then "f" else ({ _by := "", _key := "k", _tags := ["x", "y"], payload := [("title", "new")], _id := none, proxyLayers := 0 } : TagObject)._key) = "") ∧
    (¬ ({ _by := "u", _key := "k", _tags := ["x"], payload := [("title", "old")], _id := some "uk", proxyLayers := 1 } : TagObject)._by = "") ∧
    (¬ ({ _by := "u", _key := "k", _tags := ["x"], payload := [("title", "old")], _id := some "uk", proxyLayers := 1 } : TagObject)._key = "") ∧
    (({ _by := "u", _key := "k", _tags := ["x"], payload := [("title", "old")], _id := some "uk", proxyLayers := 1 } : TagObject)._by ++ ({ _by := "u", _key := "k", _tags := ["x"], payload := [("title", "old")], _id := some "uk", proxyLayers := 1 } : TagObject)._key = "u" ++ (if ({ _by := "", _key := "k", _tags := ["x", "y"], payload := [("title", "new")], _id := none, proxyLayers := 0 } : TagObject)._key = "" then "f" else ({ _by := "", _key := "k", _tags := ["x", "y"], payload := [("title", "new")], _id := none, proxyLayers := 0 } : TagObject)._key)) ∧
    (lookupK ({ tagMap := [("x", { uuids := ["uk"], count := 1 }), ("y", { uuids := [], count := 1 })], objectMap := [("uk", { _by := "u", _key := "k", _tags := ["x"], payload := [("title", "old")], _id := some "uk", proxyLayers := 1 })] } : TagState).objectMap ("u" ++ (if ({ _by := "", _key := "k", _tags := ["x", "y"], payload := [("title", "new")], _id := none, proxyLayers := 0 } : TagObject)._key = "" then "f" else ({ _by := "", _key := "k", _tags := ["x", "y"], payload := [("title", "new")], _id := none, proxyLayers := 0 } : TagObject)._key)) = some { _by := "u", _key := "k", _tags := ["x"], payload := [("title", "old")], _id := some "uk", proxyLayers := 1 }) ∧
    (("x" : String) ∈ ({ _by := "", _key := "k", _tags := ["x", "y"], payload := [("title", "new")], _id := none, proxyLayers := 0 } : TagObject)._tags) ∧
    ((lookupK ({ tagMap := [("x", { uuids := ["uk"], count := 1 }), ("y", { uuids := [], count := 1 })], objectMap := [("uk", { _by := "u", _key := "k", _tags := ["x"], payload := [("title", "old")], _id := some "uk", proxyLayers := 1 })] } : TagState).tagMap "x").isSome = true) ∧
    (("x" : String) ∈ ({ _by := "u", _key := "k", _tags := ["x"], payload := [("title", "old")], _id := some "uk", proxyLayers := 1 } : TagObject)._tags) ∧
    ((lookupK ({ tagMap := [("x", { uuids := ["uk"], count := 1 }), ("y", { uuids := [], count := 1 })], objectMap := [("uk", { _by := "u", _key := "k", _tags := ["x"], payload := [("title", "old")], _id := some "uk", proxyLayers := 1 })] } : TagState).tagMap "x").isSome = true) ∧
    ((∃ st', tagUpdate { tagMap := [("x", { uuids := [], count := 1 })], objectMap := [] } { _by := "", _key := "", _tags := ["x"], payload := [], _id := none, proxyLayers := 0 } "me" "f1" true = some st' ∧ TagObsEq st' { tagMap := [("x", { uuids := [], count := 1 })], objectMap := [] }) ∧
    CtxObsEq (ctxPost { contextMap := [("a", { ids := [], count := 1 })], objectMap := [] } { id := "o1", context := ["a"], payload := [], graffitiProxy := false, proxyLayers := 0 } true).1 { contextMap := [("a", { ids := [], count := 1 })], objectMap := [] } ∧
    lookupK (ctxPost { contextMap := [("a", { ids := ["o2"], count := 1 })], objectMap := [("o2", { id := "o2", context := ["a"], payload := [], graffitiProxy := true, proxyLayers := 1 })] } { id := "o2", context := ["a"], payload := [], graffitiProxy := false, proxyLayers := 0 } true).1.objectMap ({ id := "o2", context := ["a"], payload := [], graffitiProxy := false, proxyLayers := 0 } : CtxObject).id = none ∧
    (∃ st', tagUpdate { tagMap := [("x", { uuids := ["uk"], count := 1 }), ("y", { uuids := [], count := 1 })], objectMap := [("uk", { _by := "u", _key := "k", _tags := ["x"], payload := [("title", "old")], _id := some "uk", proxyLayers := 1 })] } { _by := "", _key := "k", _tags := ["x", "y"], payload := [("title", "new")], _id := none, proxyLayers := 0 } "u" "f" true = some st' ∧
      lookupK st'.objectMap ("u" ++ (if ({ _by := "", _key := "k", _tags := ["x", "y"], payload := [("title", "new")], _id := none, proxyLayers := 0 } : TagObject)._key = "" then "f" else ({ _by := "", _key := "k", _tags := ["x", "y"], payload := [("title", "new")], _id := none, proxyLayers := 0 } : TagObject)._key)) = some (tagWrap ("u" ++ (if ({ _by := "", _key := "k", _tags := ["x", "y"], payload := [("title", "new")], _id := none, proxyLayers := 0 } : TagObject)._key = "" then "f" else ({ _by := "", _key := "k", _tags := ["x", "y"], payload := [("title", "new")], _id := none, proxyLayers := 0 } : TagObject)._key)) (snapshotT { _by := "u", _key := "k", _tags := ["x"], payload := [("title", "old")], _id := some "uk", proxyLayers := 1 })) ∧
      (∀ u3, ¬ u3 = "u" ++ (if ({ _by := "", _key := "k", _tags := ["x", "y"], payload := [("title", "new")], _id := none, proxyLayers := 0 } : TagObject)._key = "" then "f" else ({ _by := "", _key := "k", _tags := ["x", "y"], payload := [("title", "new")], _id := none, proxyLayers := 0 } : TagObject)._key) → lookupK st'.objectMap u3 = lookupK ({ tagMap := [("x", { uuids := ["uk"], count := 1 }), ("y", { uuids := [], count := 1 })], objectMap := [("uk", { _by := "u", _key := "k", _tags := ["x"], payload := [("title", "old")], _id := some "uk", proxyLayers := 1 })] } : TagState).objectMap u3) ∧
      (∀ k e, lookupK ({ tagMap := [("x", { uuids := ["uk"], count := 1 }), ("y", { uuids := [], count := 1 })], objectMap := [("uk", { _by := "u", _key := "k", _tags := ["x"], payload := [("title", "old")], _id := some "uk", proxyLayers := 1 })] } : TagState).tagMap k = some e →
        lookupK st'.tagMap k = some (if k ∈ ({ _by := "", _key := "k", _tags := ["x", "y"], payload := [("title", "new")], _id := none, proxyLayers := 0 } : TagObject)._tags ∨ k ∈ ({ _by := "u", _key := "k", _tags := ["x"], payload := [("title", "old")], _id := some "uk", proxyLayers := 1 } : TagObject)._tags then { e with uuids := insertSet e.uuids ("u" ++ (if ({ _by := "", _key := "k", _tags := ["x", "y"], payload := [("title", "new")], _id := none, proxyLayers := 0 } : TagObject)._key = "" then "f" else ({ _by := "", _key := "k", _tags := ["x", "y"], payload := [("title", "new")], _id := none, proxyLayers := 0 } : TagObject)._key)) } else e)) ∧
      st'.tagMap.map Prod.fst = ({ tagMap := [("x", { uuids := ["uk"], count := 1 }), ("y", { uuids := [], count := 1 })], objectMap := [("uk", { _by := "u", _key := "k", _tags := ["x"], payload := [("title", "old")], _id := some "uk", proxyLayers := 1 })] } : TagState).tagMap.map Prod.fst)) :=
  ⟨by decide, by decide, rfl, by decide, rfl, by decide, rfl, by decide,
   by decide, by decide, by decide, by decide, rfl, rfl, by decide, rfl,
   by decide, rfl,
   update_rollback_amended
     { tagMap := [("x", { uuids := [], count := 1 })], objectMap := [] }
     { _by := "", _key := "", _tags := ["x"], payload := [], _id := none, proxyLayers := 0 }
     "me" "f1"
     { contextMap := [("a", { ids := [], count := 1 })], objectMap := [] }
     { id := "o1", context := ["a"], payload := [], graffitiProxy := false, proxyLayers := 0 }
     { contextMap := [("a", { ids := ["o2"], count := 1 })], objectMap := [("o2", { id := "o2", context := ["a"], payload := [], graffitiProxy := true, proxyLayers := 1 })] }
     { id := "o2", context := ["a"], payload := [], graffitiProxy := false, proxyLayers := 0 }
     { tagMap := [("x", { uuids := ["uk"], count := 1 }), ("y", { uuids := [], count := 1 })], objectMap := [("uk", { _by := "u", _key := "k", _tags := ["x"], payload := [("title", "old")], _id := some "uk", proxyLayers := 1 })] } { _by := "", _key := "k", _tags := ["x", "y"], payload := [("title", "new")], _id := none, proxyLayers := 0 } "u" "f" { _by := "u", _key := "k", _tags := ["x"], payload := [("title", "old")], _id := some "uk", proxyLayers := 1 } "x" "x"
     (by decide) (by decide) rfl (by decide) rfl (by decide)
     rfl (by decide) (by decide) (by decide) (by decide) (by decide)
     rfl rfl (by decide) rfl (by decide) rfl⟩
